import Mathlib

/-!
# Verification of the nettune apply/verify/rollback engine

A shallow embedding, in Lean 4, of the core logic of the nettune server
(`internal/server/service/apply.go` and `internal/server/service/profile.go`),
together with proofs about plan generation, value rendering and
normalisation, profile validation, apply sequencing, verification-driven
rollback, and the lock discipline.

External effects (the sysctl / tc / systemctl adapters, the snapshot store,
the filesystem) are modelled by an explicit environment of oracles, and every
adapter invocation made by the engine is recorded in an event trace, so that
ordering and frame ("no mutation") properties can be stated.
-/

set_option autoImplicit false

namespace Nettune

/-! ## Sysctl value normalisation (`normalizeSysctlValue`, apply.go:494-504)

The Go function replaces every tab with a space, then repeatedly replaces
`"  "` (two spaces) by `" "` until no occurrence is left, then applies
`strings.TrimSpace`.  We work on `List Char` and wrap to `String`. -/

/-- Whitespace as recognised by Go's `unicode.IsSpace` (used by
`strings.TrimSpace`): `\t \n \v \f \r ' '` plus NEL, NBSP and the
Unicode space separators. -/
def goIsSpace (c : Char) : Bool :=
  c.val == 9 || c.val == 10 || c.val == 11 || c.val == 12 || c.val == 13 ||
  c.val == 32 || c.val == 0x85 || c.val == 0xA0 ||
  c.val == 0x1680 || (0x2000 ≤ c.val && c.val ≤ 0x200A) ||
  c.val == 0x2028 || c.val == 0x2029 || c.val == 0x202F ||
  c.val == 0x205F || c.val == 0x3000

/-- `strings.ReplaceAll(value, "\t", " ")`. -/
def replaceTabs (l : List Char) : List Char :=
  l.map fun c => if c = '\t' then ' ' else c

/-- Whether the list contains the substring `"  "` (the loop guard
`strings.Contains(result, "  ")`). -/
def hasDoubleSpace : List Char → Bool
  | [] => false
  | [_] => false
  | c :: d :: rest =>
      if c = ' ' ∧ d = ' ' then true else hasDoubleSpace (d :: rest)

/-- One pass of `strings.ReplaceAll(result, "  ", " ")`: replace
non-overlapping occurrences of two spaces by one, left to right. -/
def replaceDoubleSpace : List Char → List Char
  | [] => []
  | [c] => [c]
  | c :: d :: rest =>
      if c = ' ' ∧ d = ' ' then ' ' :: replaceDoubleSpace rest
      else c :: replaceDoubleSpace (d :: rest)

/-- The `for strings.Contains(result, "  ")` loop, with explicit fuel.
Each iteration strictly shrinks the list, so fuel `l.length` always
reaches the fixpoint (`collapseLoop_fuel_sufficient`). -/
def collapseLoop : Nat → List Char → List Char
  | 0, l => l
  | fuel + 1, l =>
      if hasDoubleSpace l then collapseLoop fuel (replaceDoubleSpace l) else l

/-- Left trim of `strings.TrimSpace`. -/
def trimLeftSpace (l : List Char) : List Char := l.dropWhile goIsSpace

/-- Right trim of `strings.TrimSpace`. -/
def trimRightSpace (l : List Char) : List Char :=
  (l.reverse.dropWhile goIsSpace).reverse

/-- `strings.TrimSpace`. -/
def trimSpace (l : List Char) : List Char := trimRightSpace (trimLeftSpace l)

/-- `normalizeSysctlValue` on character lists. -/
def normalizeChars (l : List Char) : List Char :=
  trimSpace (collapseLoop (replaceTabs l).length (replaceTabs l))

/-- `normalizeSysctlValue` (apply.go:496): tabs to spaces, collapse runs of
spaces, trim surrounding whitespace. -/
def normalizeSysctlValue (s : String) : String :=
  ⟨normalizeChars s.data⟩

/-! ## Sysctl value rendering (`formatSysctlValue`, apply.go:474-492) -/

/-- The scalar JSON values a profile can hold for a sysctl key.  The Go
function switches on the dynamic type: strings pass through; `float64`
values with zero fractional part and every signed/unsigned integer width
render through `%d`.  Non-integral floats do not occur in the claims and
are not modelled. -/
inductive SysctlValue where
  | str (s : String)
  | int (n : Int)
  | uint (n : Nat)
  deriving DecidableEq, Repr

/-- Decimal digit character for `d < 10`. -/
def digitChar (d : Nat) : Char := Char.ofNat (48 + d)

/-- Digits of `n`, most significant first; structural fuel (any
`fuel ≥ n` yields the full rendering, empty at `n = 0`). -/
def renderNatAux : Nat → Nat → List Char
  | 0, _ => []
  | fuel + 1, n =>
      if n = 0 then []
      else renderNatAux fuel (n / 10) ++ [digitChar (n % 10)]

/-- `fmt.Sprintf("%d", n)` for a natural number. -/
def renderNat (n : Nat) : String :=
  if n = 0 then "0" else ⟨renderNatAux n n⟩

/-- `fmt.Sprintf("%d", n)` for a (signed) integer. -/
def renderInt (n : Int) : String :=
  if n < 0 then "-" ++ renderNat (-n).toNat else renderNat n.toNat

/-- `formatSysctlValue` (apply.go:475): strings verbatim, numbers in plain
decimal, never scientific notation. -/
def formatSysctlValue : SysctlValue → String
  | .str s => s
  | .int n => renderInt n
  | .uint n => renderNat n

/-- Parse an unsigned decimal string (accumulator form); `none` on any
non-digit character. -/
def parseDigits : Nat → List Char → Option Nat
  | acc, [] => some acc
  | acc, c :: cs =>
      if c.isDigit then parseDigits (10 * acc + (c.toNat - 48)) cs else none

/-- Parse a rendered unsigned value back to a natural number. -/
def parseNat (s : String) : Option Nat :=
  if s.data.isEmpty then none else parseDigits 0 s.data

/-! ## Data model (`internal/shared/types`, fields as the engine uses them)

`description` / `requires_reboot` / timestamps are operator-facing and never
read by the engine logic under verification; they are omitted. -/

structure Change where
  fromVal : String
  toVal : String
  deriving DecidableEq, Repr

structure ApplyPlan where
  sysctlChanges : List (String × Change)
  qdiscChanges : List (String × Change)
  systemdChanges : List (String × Change)
  deriving DecidableEq, Repr

structure QdiscInfo where
  type : String
  handle : String
  params : List (String × String)
  deriving DecidableEq, Repr

/-- Captured system state.  `sysctl` is an `Option` because Go distinguishes
a `nil` map from an empty one (`rollbackInternal` checks `!= nil`); the
`qdisc` map can hold `nil` pointers, also checked for. -/
structure SystemState where
  sysctl : Option (List (String × String))
  qdisc : List (String × Option QdiscInfo)
  systemdUnits : List (String × Bool)
  deriving DecidableEq, Repr

structure Snapshot where
  id : String
  state : SystemState
  backups : List (String × String)
  deriving DecidableEq, Repr

structure QdiscConfig where
  type : String
  interfaces : String
  params : Option (List (String × SysctlValue))
  deriving DecidableEq, Repr

structure SystemdConfig where
  ensureQdiscService : Bool
  deriving DecidableEq, Repr

structure Profile where
  id : String
  name : String
  riskLevel : String
  sysctl : Option (List (String × SysctlValue))
  qdisc : Option QdiscConfig
  systemd : Option SystemdConfig
  deriving DecidableEq, Repr

structure VerificationResult where
  sysctlOK : Bool
  qdiscOK : Bool
  systemdOK : Bool
  errors : List String
  deriving DecidableEq, Repr

structure ApplyRequest where
  profileID : String
  mode : String
  deriving DecidableEq, Repr

/-- `types.ApplyResult`.  `appliedAt` models whether `AppliedAt = time.Now()`
was executed (wall-clock time itself is not embedded). -/
structure ApplyResult where
  mode : String
  profileID : String
  plan : ApplyPlan
  snapshotID : String
  success : Bool
  verification : Option VerificationResult
  errors : List String
  appliedAt : Bool
  deriving DecidableEq, Repr

/-- Engine-level error values (`types.Err…`). -/
inductive NErr where
  | applyInProgress
  | profileNotFound
  | validationFailed (msg : String)
  | internalErr (msg : String)
  | snapshotNotFound
  deriving DecidableEq, Repr

/-! ## Profile validation (profile.go:122-169, 245-322) -/

def isLowerAlnum (c : Char) : Bool := ('a' ≤ c && c ≤ 'z') || c.isDigit

def isLowerAlpha (c : Char) : Bool := 'a' ≤ c && c ≤ 'z'

/-- `profileIDRegex.MatchString` for `^[a-z0-9][a-z0-9-]*[a-z0-9]$`,
hand-compiled: first and last characters lowercase-alphanumeric (so length
at least two), interior characters may additionally be `-`. -/
def matchesProfileIDRegex (s : String) : Bool :=
  match s.data with
  | [] => false
  | c :: rest =>
      match rest.getLast? with
      | none => false
      | some last =>
          isLowerAlnum c &&
          rest.dropLast.all (fun m => isLowerAlnum m || m = '-') &&
          isLowerAlnum last

/-- `isValidProfileID` (profile.go:247): explicit `len < 2` guard, then the
regex. -/
def isValidProfileID (id : String) : Bool :=
  if id.length < 2 then false else matchesProfileIDRegex id

/-- `sysctlKeyRegex.MatchString` for `^[a-z][a-z0-9_.]*[a-z0-9]$`,
hand-compiled. -/
def isValidSysctlKey (key : String) : Bool :=
  match key.data with
  | [] => false
  | c :: rest =>
      match rest.getLast? with
      | none => false
      | some last =>
          isLowerAlpha c &&
          rest.dropLast.all (fun m => isLowerAlnum m || m = '_' || m = '.') &&
          isLowerAlnum last

/-- `isValidQdiscType` (profile.go:260). -/
def isValidQdiscType (t : String) : Bool :=
  t = "fq" || t = "fq_codel" || t = "cake" || t = "pfifo_fast"

/-- `validQdiscParams` (profile.go:271): the closed allow-list per type. -/
def validQdiscParams (t : String) : Option (List String) :=
  if t = "fq" then some
    ["limit", "flow_limit", "quantum", "initial_quantum",
     "maxrate", "buckets", "pacing", "nopacing", "refill_delay",
     "low_rate_threshold", "orphan_mask", "timer_slack",
     "ce_threshold", "horizon", "horizon_cap", "horizon_drop"]
  else if t = "fq_codel" then some
    ["limit", "flows", "target", "interval", "quantum",
     "ecn", "noecn", "ce_threshold", "memory_limit"]
  else if t = "cake" then some
    ["bandwidth", "besteffort", "diffserv3", "diffserv4", "diffserv8",
     "flowblind", "srchost", "dsthost", "hosts", "flows",
     "dual-srchost", "dual-dsthost", "nat", "nonat",
     "wash", "nowash", "split-gso", "no-split-gso",
     "ack-filter", "ack-filter-aggressive", "no-ack-filter",
     "memlimit", "fwmark", "atm", "noatm", "ptm", "noptm",
     "overhead", "mpu", "ingress", "egress",
     "rtt", "raw", "conservative"]
  else if t = "pfifo_fast" then some []
  else none

/-- `validateQdiscParams` (profile.go:296): unknown type is an error; any
parameter name outside the allow-list is an error listing the offenders. -/
def validateQdiscParams (qdiscType : String)
    (params : List (String × SysctlValue)) : Option String :=
  match validQdiscParams qdiscType with
  | none => some ("unknown qdisc type: " ++ qdiscType)
  | some valid =>
      let invalid := (params.map Prod.fst).filter fun k => !valid.contains k
      if invalid.isEmpty then none
      else some ("invalid qdisc parameter(s) for " ++ qdiscType ++ ": [" ++
        String.intercalate " " invalid ++ "]. Valid parameters are: [" ++
        String.intercalate " " valid ++ "]")

/-- The error messages collected by `Validate` (profile.go:122-163), in
source order. -/
def validateErrors (p : Profile) : List String :=
  (if !isValidProfileID p.id then
    ["invalid profile ID format (must be alphanumeric with hyphens)"] else []) ++
  (if p.name = "" then ["name is required"] else []) ++
  (if p.riskLevel ≠ "low" ∧ p.riskLevel ≠ "medium" ∧ p.riskLevel ≠ "high" then
    ["risk_level must be low, medium, or high"] else []) ++
  (match p.sysctl with
   | none => []
   | some m => m.filterMap fun kv =>
       if !isValidSysctlKey kv.1 then
         some ("invalid sysctl key " ++ kv.1) else none) ++
  (match p.qdisc with
   | none => []
   | some q =>
       (if !isValidQdiscType q.type then
         ["invalid qdisc type " ++ q.type ++
          ": must be one of fq, fq_codel, cake, or pfifo_fast"] else []) ++
       (if q.interfaces ≠ "default-route" ∧ q.interfaces ≠ "all" then
         ["qdisc interfaces must be default-route or all"] else []) ++
       (match q.params with
        | some ps =>
            if q.type ≠ "" then
              match validateQdiscParams q.type ps with
              | some e => [e]
              | none => []
            else []
        | none => []))

/-- `Validate` (profile.go:122): all errors are collected and joined with
`"; "` behind `types.ErrValidationFailed`; the profile is rejected as a
whole.  `none` means the profile is valid. -/
def Validate (p : Profile) : Option String :=
  match validateErrors p with
  | [] => none
  | errs => some ("validation failed: " ++ String.intercalate "; " errs)

/-- `Save` (profile.go:218): validate, marshal (total for this value
model), atomically write `<dir>/<id>.json`, update the cache.  The write
outcome is supplied by the environment (`none` = success). -/
def Save (writeResult : Option String) (p : Profile) : Option String :=
  match Validate p with
  | some e => some e
  | none =>
      match writeResult with
      | some e => some ("failed to write profile: " ++ e)
      | none => none

/-! ## Environment and event traces

The system adapter, snapshot store and filesystem are external effects; we
model them as a record of oracles.  Each adapter invocation the engine makes
is recorded as an `Event`, so ordering and "no mutation" statements can be
made about the emitted trace.  An `Option String` outcome is `none` for
success, `some msg` for failure. -/

structure Env where
  profiles : List (String × Profile)
  currentState : Except String SystemState
  snapshotCreate : Except String Snapshot
  snapshotGet : String → Option Snapshot
  sysctlGet : String → Except String String
  sysctlWriteFile : String → List (String × String) → Option String
  sysctlSetMultiple : List (String × String) → Option String
  qdiscGet : String → Except String QdiscInfo
  qdiscSet : String → String → Option (List (String × SysctlValue)) → Option String
  qdiscDefaultRoute : Except String String
  qdiscListInterfaces : Except String (List String)
  qdiscValidateParams : String → List (String × SysctlValue) → Option String
  systemdCreateUnit : Option String
  systemdEnable : Option String
  systemdStart : Option String
  systemdIsActive : Bool
  systemdIsEnabled : Bool
  osWriteFile : String → Option String

inductive Event where
  | getCurrentState
  | snapshotCreate
  | snapshotGet (id : String)
  | sysctlGet (key : String)
  | sysctlWriteFile (path : String)
  | sysctlSetMultiple
  | sysctlLoadFromFile (path : String)
  | qdiscValidateParams
  | qdiscGetDefaultRoute
  | qdiscListIfaces
  | qdiscGetInfo (iface : String)
  | qdiscSet (iface : String)
  | systemdCreateUnit
  | systemdEnable
  | systemdStart
  | systemdIsActive
  | systemdIsEnabled
  | osWriteFile (path : String) (mode : Nat)
  | historyRecordApply (ok : Bool)
  | historyRecordRollback (ok : Bool)
  deriving DecidableEq, Repr

/-- Whether an event mutates system state (writes a file, changes kernel
state, creates/starts a unit, persists a snapshot or a history entry). -/
def Event.isMutating : Event → Bool
  | .snapshotCreate => true
  | .sysctlWriteFile _ => true
  | .sysctlSetMultiple => true
  | .sysctlLoadFromFile _ => true
  | .qdiscSet _ => true
  | .systemdCreateUnit => true
  | .systemdEnable => true
  | .systemdStart => true
  | .osWriteFile _ _ => true
  | .historyRecordApply _ => true
  | .historyRecordRollback _ => true
  | _ => false

/-- The managed persistent sysctl file (apply.go:192, 327). -/
def sysctlConfPath : String := "/etc/sysctl.d/99-nettune.conf"

/-- `adapter.NettuneQdiscServiceName` (fixed managed unit name). -/
def nettuneQdiscServiceName : String := "nettune-qdisc.service"

/-- `adapter.NettuneQdiscScriptPath` (fixed managed script path; the exact
constant lives in the adapter package and is irrelevant to the engine
logic). -/
def nettuneQdiscScriptPath : String := "/etc/nettune/qdisc-setup.sh"

/-! ## Plan generation (`generatePlan`, apply.go:255-315) -/

/-- Go map read `currentState.Sysctl[key]` (missing key or `nil` map gives
`""`). -/
def lookupSysctl (st : SystemState) (key : String) : String :=
  match st.sysctl with
  | some m => (m.lookup key).getD ""
  | none => ""

/-- `currentState.Qdisc[iface]` followed by the `currentQdisc != nil`
guard (apply.go:289-293): the type is `""` when the entry is missing or
`nil`. -/
def currentQdiscType (st : SystemState) (iface : String) : String :=
  match st.qdisc.lookup iface with
  | some (some info) => info.type
  | _ => ""

/-- `currentState.SystemdUnits[name]` (missing key gives `false`). -/
def unitActive (st : SystemState) (unit : String) : Bool :=
  (st.systemdUnits.lookup unit).getD false

/-- Interface resolution as done in `generatePlan` (apply.go:279-286) and
`verifyChanges` (apply.go:407-414): errors are swallowed, leaving an empty
interface list.  Also returns the read events the resolution emits. -/
def resolveIfacesLenientEv (env : Env) (q : QdiscConfig) :
    List String × List Event :=
  if q.interfaces = "default-route" then
    (match env.qdiscDefaultRoute with
     | .ok i => [i]
     | .error _ => [], [.qdiscGetDefaultRoute])
  else
    (match env.qdiscListInterfaces with
     | .ok l => l
     | .error _ => [], [.qdiscListIfaces])

/-- `generatePlan` (apply.go:255): include a sysctl entry only when the
normalised current and rendered-new values differ; a qdisc entry per
resolved interface only when the current type differs from the desired
type; a systemd entry only when requested and the unit is not active. -/
def generatePlan (env : Env) (profile : Profile) (currentState : SystemState) :
    ApplyPlan :=
  let sysctlChanges :=
    match profile.sysctl with
    | none => []
    | some m =>
        m.filterMap fun kv =>
          let oldValue := lookupSysctl currentState kv.1
          let newValueStr := formatSysctlValue kv.2
          if normalizeSysctlValue oldValue ≠ normalizeSysctlValue newValueStr then
            some (kv.1, Change.mk oldValue newValueStr)
          else none
  let qdiscChanges :=
    match profile.qdisc with
    | none => []
    | some q =>
        (resolveIfacesLenientEv env q).1.filterMap fun iface =>
          let currentType := currentQdiscType currentState iface
          if currentType ≠ q.type then
            some (iface, Change.mk currentType q.type)
          else none
  let systemdChanges :=
    match profile.systemd with
    | some sd =>
        if sd.ensureQdiscService && !(unitActive currentState nettuneQdiscServiceName) then
          [(nettuneQdiscServiceName, Change.mk "inactive" "active")]
        else []
    | none => []
  ⟨sysctlChanges, qdiscChanges, systemdChanges⟩

/-- The (read-only) adapter events `generatePlan` emits; they depend only on
the profile shape. -/
def generatePlanEvents (profile : Profile) : List Event :=
  match profile.qdisc with
  | none => []
  | some q =>
      if q.interfaces = "default-route" then [.qdiscGetDefaultRoute]
      else [.qdiscListIfaces]

/-! ## Mutation (`applyChanges`, apply.go:318-376) -/

/-- An engine step: optional error message plus the emitted event trace. -/
abbrev StepResult := Option String × List Event

/-- Sysctl step (apply.go:320-335): write the persistent file, then apply
in-memory; the first failure aborts with its message. -/
def applySysctl (env : Env) (profile : Profile) : StepResult :=
  match profile.sysctl with
  | none => (none, [])
  | some m =>
      let sysctlValues := m.map fun kv => (kv.1, formatSysctlValue kv.2)
      match env.sysctlWriteFile sysctlConfPath sysctlValues with
      | some e => (some ("failed to write sysctl file: " ++ e),
          [.sysctlWriteFile sysctlConfPath])
      | none =>
          match env.sysctlSetMultiple sysctlValues with
          | some e => (some ("failed to apply sysctl: " ++ e),
              [.sysctlWriteFile sysctlConfPath, .sysctlSetMultiple])
          | none => (none, [.sysctlWriteFile sysctlConfPath, .sysctlSetMultiple])

/-- `ensureQdiscService` (apply.go:445-472): write the boot script (mode
`0755`), create the unit, enable, start; stop at the first failure. -/
def ensureQdiscServiceStep (env : Env) : StepResult :=
  match env.osWriteFile nettuneQdiscScriptPath with
  | some e => (some ("failed to write qdisc script: " ++ e),
      [.osWriteFile nettuneQdiscScriptPath 493])
  | none =>
      match env.systemdCreateUnit with
      | some e => (some ("failed to create systemd unit: " ++ e),
          [.osWriteFile nettuneQdiscScriptPath 493, .systemdCreateUnit])
      | none =>
          match env.systemdEnable with
          | some e => (some ("failed to enable service: " ++ e),
              [.osWriteFile nettuneQdiscScriptPath 493, .systemdCreateUnit,
               .systemdEnable])
          | none =>
              match env.systemdStart with
              | some e => (some ("failed to start service: " ++ e),
                  [.osWriteFile nettuneQdiscScriptPath 493, .systemdCreateUnit,
                   .systemdEnable, .systemdStart])
              | none => (none,
                  [.osWriteFile nettuneQdiscScriptPath 493, .systemdCreateUnit,
                   .systemdEnable, .systemdStart])

/-- The per-interface `Qdisc.Set` loop (apply.go:361-365): the first
failure aborts. -/
def setAllQdiscs (env : Env) (q : QdiscConfig) : List String → StepResult
  | [] => (none, [])
  | iface :: rest =>
      match env.qdiscSet iface q.type q.params with
      | some e => (some ("failed to set qdisc for " ++ iface ++ ": " ++ e),
          [.qdiscSet iface])
      | none =>
          let r := setAllQdiscs env q rest
          (r.1, .qdiscSet iface :: r.2)

/-- Qdisc step (apply.go:338-373): validate params, resolve the target
interfaces (failure here is fatal, unlike in plan generation), set each
interface, then — when requested — install the persistence service, whose
failure is only logged as a warning (apply.go:369-371). -/
def applyQdisc (env : Env) (profile : Profile) : StepResult :=
  match profile.qdisc with
  | none => (none, [])
  | some q =>
      let validation : StepResult :=
        match q.params with
        | some ps =>
            match env.qdiscValidateParams q.type ps with
            | some e => (some ("qdisc validation failed: " ++ e),
                [.qdiscValidateParams])
            | none => (none, [.qdiscValidateParams])
        | none => (none, [])
      match validation with
      | (some e, tr) => (some e, tr)
      | (none, tr) =>
          let resolved : Except (String × List Event) (List String × List Event) :=
            if q.interfaces = "default-route" then
              match env.qdiscDefaultRoute with
              | .ok i => .ok ([i], [.qdiscGetDefaultRoute])
              | .error e =>
                  .error ("failed to get default route interface: " ++ e,
                    [.qdiscGetDefaultRoute])
            else
              match env.qdiscListInterfaces with
              | .ok l => .ok (l, [.qdiscListIfaces])
              | .error e =>
                  .error ("failed to list interfaces: " ++ e, [.qdiscListIfaces])
          match resolved with
          | .error (e, tr2) => (some e, tr ++ tr2)
          | .ok (interfaces, tr2) =>
              match setAllQdiscs env q interfaces with
              | (some e, tr3) => (some e, tr ++ tr2 ++ tr3)
              | (none, tr3) =>
                  match profile.systemd with
                  | some sd =>
                      if sd.ensureQdiscService then
                        (none, tr ++ tr2 ++ tr3 ++ (ensureQdiscServiceStep env).2)
                      else (none, tr ++ tr2 ++ tr3)
                  | none => (none, tr ++ tr2 ++ tr3)

/-- `applyChanges` (apply.go:318): sysctl step first, then the qdisc step
(which includes the systemd persistence setup). -/
def applyChanges (env : Env) (profile : Profile) : StepResult :=
  match applySysctl env profile with
  | (some e, tr) => (some e, tr)
  | (none, tr) =>
      let r := applyQdisc env profile
      (r.1, tr ++ r.2)

/-! ## Verification (`verifyChanges`, apply.go:379-442) -/

/-- Sysctl verification loop (apply.go:388-402): re-read each key,
normalise both sides; collect mismatches and read failures. -/
def verifySysctl (env : Env) :
    List (String × SysctlValue) → Bool × List String × List Event
  | [] => (true, [], [])
  | kv :: rest =>
      let hd : Bool × List String :=
        match env.sysctlGet kv.1 with
        | .error e => (false, ["failed to read sysctl " ++ kv.1 ++ ": " ++ e])
        | .ok actualValue =>
            let expectedStr := formatSysctlValue kv.2
            if normalizeSysctlValue actualValue ≠ normalizeSysctlValue expectedStr then
              (false, ["sysctl " ++ kv.1 ++ ": expected " ++ expectedStr ++
                ", got " ++ actualValue])
            else (true, [])
      let (ok, errs, tr) := verifySysctl env rest
      (hd.1 && ok, hd.2 ++ errs, .sysctlGet kv.1 :: tr)

/-- Qdisc verification loop (apply.go:416-428): re-read the root qdisc of
each resolved interface. -/
def verifyQdisc (env : Env) (q : QdiscConfig) :
    List String → Bool × List String × List Event
  | [] => (true, [], [])
  | iface :: rest =>
      let hd : Bool × List String :=
        match env.qdiscGet iface with
        | .error e => (false, ["failed to read qdisc for " ++ iface ++ ": " ++ e])
        | .ok info =>
            if info.type ≠ q.type then
              (false, ["qdisc for " ++ iface ++ ": expected " ++ q.type ++
                ", got " ++ info.type])
            else (true, [])
      let (ok, errs, tr) := verifyQdisc env q rest
      (hd.1 && ok, hd.2 ++ errs, .qdiscGetInfo iface :: tr)

/-- `verifyChanges` (apply.go:379): each `…OK` flag starts `true` and is
cleared by any failure in its section; the systemd check requires both
active and enabled. -/
def verifyChanges (env : Env) (profile : Profile) :
    VerificationResult × List Event :=
  let sres :=
    match profile.sysctl with
    | none => ((true : Bool), ([] : List String), ([] : List Event))
    | some m => verifySysctl env m
  let qres :=
    match profile.qdisc with
    | none => ((true : Bool), ([] : List String), ([] : List Event))
    | some q =>
        let (interfaces, rtr) := resolveIfacesLenientEv env q
        let (ok, errs, tr) := verifyQdisc env q interfaces
        (ok, errs, rtr ++ tr)
  let dres :=
    match profile.systemd with
    | some sd =>
        if sd.ensureQdiscService then
          if !env.systemdIsActive || !env.systemdIsEnabled then
            ((false : Bool),
             ["service " ++ nettuneQdiscServiceName ++ " is not active or enabled"],
             ([Event.systemdIsActive, Event.systemdIsEnabled] : List Event))
          else (true, [], [Event.systemdIsActive, Event.systemdIsEnabled])
        else (true, [], [])
    | none => (true, [], [])
  (⟨sres.1, qres.1, dres.1, sres.2.1 ++ qres.2.1 ++ dres.2.1⟩,
   sres.2.2 ++ qres.2.2 ++ dres.2.2)

/-! ## Rollback (`rollbackInternal`, apply.go:169-214) -/

/-- `rollbackInternal` (apply.go:169): load the snapshot (the only failure
that propagates), then best-effort — re-apply the snapshot's sysctl map to
the running kernel, write each backed-up file at mode `0644`, reload
persistent sysctl iff the managed file was backed up, restore each
recorded non-nil qdisc — and record a successful rollback in history.
Every restore-step outcome is only logged (apply.go:178, 185, 201), so the
trace and result do not depend on the mutation oracles. -/
def rollbackInternal (env : Env) (snapshotID : String) :
    Except String Unit × List Event :=
  match env.snapshotGet snapshotID with
  | none => (.error "snapshot not found", [.snapshotGet snapshotID])
  | some snapshot =>
      let sysctlTr : List Event :=
        match snapshot.state.sysctl with
        | some _ => [.sysctlSetMultiple]
        | none => []
      let fileTr : List Event :=
        snapshot.backups.map fun pc => .osWriteFile pc.1 420
      let loadTr : List Event :=
        if (snapshot.backups.lookup sysctlConfPath).isSome then
          [.sysctlLoadFromFile sysctlConfPath]
        else []
      let qdiscTr : List Event :=
        snapshot.state.qdisc.filterMap fun ii =>
          match ii.2 with
          | some _ => some (Event.qdiscSet ii.1)
          | none => none
      (.ok (),
       .snapshotGet snapshotID ::
         (sysctlTr ++ fileTr ++ loadTr ++ qdiscTr ++ [.historyRecordRollback true]))

/-! ## The engine entry points (`Apply` / `Rollback`, apply.go:44-166) -/

/-- The lock acquisition at apply.go:45-51 / 151-157: under the mutex, fail
if the flag is set, otherwise set it.  Returns (acquired, new flag). -/
def tryAcquireLock (applyLock : Bool) : Bool × Bool :=
  if applyLock then (false, applyLock) else (true, true)

/-- `Apply` (apply.go:44): lock check, profile lookup, validation, current
state, plan; `dry_run` returns the plan; `commit` snapshots, mutates,
verifies, rolls back on apply failure or on a sysctl/qdisc verification
failure, and records history on success.  `applyLock` is the engine's flag
at entry. -/
def Apply (env : Env) (applyLock : Bool) (req : ApplyRequest) :
    Except NErr ApplyResult × List Event :=
  if applyLock then (.error .applyInProgress, [])
  else
    match env.profiles.lookup req.profileID with
    | none => (.error .profileNotFound, [])
    | some profile =>
        match Validate profile with
        | some e => (.error (.validationFailed e), [])
        | none =>
            match env.currentState with
            | .error e =>
                (.error (.internalErr ("failed to get current state: " ++ e)),
                 [.getCurrentState])
            | .ok currentState =>
                let plan := generatePlan env profile currentState
                let base : ApplyResult :=
                  ⟨req.mode, req.profileID, plan, "", false, none, [], false⟩
                let preTr := Event.getCurrentState :: generatePlanEvents profile
                if req.mode = "dry_run" then
                  (.ok { base with success := true }, preTr)
                else
                  match env.snapshotCreate with
                  | .error e =>
                      (.error (.internalErr ("failed to create snapshot: " ++ e)),
                       preTr ++ [.snapshotCreate])
                  | .ok snapshot =>
                      let r1 := { base with snapshotID := snapshot.id }
                      match applyChanges env profile with
                      | (some e, applyTr) =>
                          let (rbRes, rbTr) := rollbackInternal env snapshot.id
                          let errs :=
                            match rbRes with
                            | .error re =>
                                ["apply failed: " ++ e ++
                                 "; rollback also failed: " ++ re]
                            | .ok _ => ["apply failed and rolled back: " ++ e]
                          (.ok { r1 with success := false, errors := errs },
                           preTr ++ [.snapshotCreate] ++ applyTr ++ rbTr)
                      | (none, applyTr) =>
                          let (verification, verTr) := verifyChanges env profile
                          let r2 := { r1 with verification := some verification }
                          if !verification.sysctlOK || !verification.qdiscOK then
                            let (rbRes, rbTr) := rollbackInternal env snapshot.id
                            let errs :=
                              match rbRes with
                              | .error re =>
                                  ["verification failed; rollback also failed: " ++ re]
                              | .ok _ => ["verification failed; rolled back"]
                            (.ok { r2 with success := false, errors := errs },
                             preTr ++ [.snapshotCreate] ++ applyTr ++ verTr ++ rbTr)
                          else
                            (.ok { r2 with success := true, appliedAt := true },
                             preTr ++ [.snapshotCreate] ++ applyTr ++ verTr ++
                               [.historyRecordApply true])

/-- `Rollback` (apply.go:150): same lock discipline, then
`rollbackInternal`; a snapshot-load failure surfaces as an error. -/
def Rollback (env : Env) (applyLock : Bool) (snapshotID : String) :
    Except NErr Unit × List Event :=
  if applyLock then (.error .applyInProgress, [])
  else
    match rollbackInternal env snapshotID with
    | (.ok _, tr) => (.ok (), tr)
    | (.error _, tr) => (.error .snapshotNotFound, tr)

/-! ## Ordering predicates over event traces -/

/-- The restore-step order claimed by the specification for rollback:
backup-file writes first, then the persistent-sysctl reload, then the
in-kernel sysctl map, then the qdiscs.  Non-restore events are ignored. -/
def specRollbackRank : Event → Option Nat
  | .osWriteFile _ _ => some 0
  | .sysctlLoadFromFile _ => some 1
  | .sysctlSetMultiple => some 2
  | .qdiscSet _ => some 3
  | _ => none

/-- The restore-step order the code performs (apply.go:176-206): the
in-kernel sysctl map first, then backup-file writes, then the reload,
then the qdiscs. -/
def codeRollbackRank : Event → Option Nat
  | .sysctlSetMultiple => some 0
  | .osWriteFile _ _ => some 1
  | .sysctlLoadFromFile _ => some 2
  | .qdiscSet _ => some 3
  | _ => none

/-- The mutation order of `applyChanges` (apply.go:318-376): sysctl file
write, sysctl in-memory apply, qdisc param validation, interface
resolution, per-interface qdisc set, then the persistence service (script,
unit, enable, start).  Events outside the apply step are ignored. -/
def applyStepRank : Event → Option Nat
  | .sysctlWriteFile _ => some 0
  | .sysctlSetMultiple => some 1
  | .qdiscValidateParams => some 2
  | .qdiscGetDefaultRoute => some 3
  | .qdiscListIfaces => some 3
  | .qdiscSet _ => some 4
  | .osWriteFile _ _ => some 5
  | .systemdCreateUnit => some 6
  | .systemdEnable => some 7
  | .systemdStart => some 8
  | _ => none

/-- A trace performs its ranked steps in order when the ranks of its
ranked events are non-decreasing. -/
def rankedOrdered (rank : Event → Option Nat) (tr : List Event) : Prop :=
  List.Pairwise (· ≤ ·) (tr.filterMap rank)

/-! ## Concrete instances used to test rollback ordering -/

/-- A snapshot with a sysctl map, a backed-up managed file and a recorded
qdisc, so a rollback exercises every restore step. -/
def snapC6 : Snapshot :=
  ⟨"s1",
   ⟨some [("net.ipv4.tcp_rmem", "4096 131072 6291456")],
    [("eth0", some ⟨"fq_codel", "0", []⟩)], []⟩,
   [(sysctlConfPath, "net.ipv4.tcp_rmem = 4096 131072 6291456\n")]⟩

/-- An environment whose snapshot store holds `snapC6` and whose restore
oracles all succeed. -/
def envC6 : Env :=
  ⟨[], .error "e", .error "e", fun _ => some snapC6, fun _ => .error "e",
   fun _ _ => none, fun _ => none, fun _ => .error "e", fun _ _ _ => none,
   .error "e", .error "e", fun _ _ => none, none, none, none, true, true,
   fun _ => none⟩

/-- `envC6` with every restore oracle failing (same snapshot store). -/
def envC6fail : Env :=
  { envC6 with
    sysctlSetMultiple := fun _ => some "sysctl failed"
    osWriteFile := fun _ => some "write failed"
    qdiscSet := fun _ _ _ => some "tc failed" }

/-- The single error entry the engine records after a verification-driven
rollback (apply.go:124-129): a failed rollback makes the entry report both
failures. -/
def rollbackErrMsgVer (rbRes : Except String Unit) : List String :=
  match rbRes with
  | .error re => ["verification failed; rollback also failed: " ++ re]
  | .ok _ => ["verification failed; rolled back"]

/-- The single error entry the engine records after an apply-failure
rollback (apply.go:105-110). -/
def rollbackErrMsgApply (e : String) (rbRes : Except String Unit) : List String :=
  match rbRes with
  | .error re => ["apply failed: " ++ e ++ "; rollback also failed: " ++ re]
  | .ok _ => ["apply failed and rolled back: " ++ e]

deriving instance DecidableEq for Except

/-! ## Concrete instances used to test verification-driven rollback -/

/-- A valid profile that only requests the managed systemd unit. -/
def pC1 : Profile := ⟨"ab", "x", "low", none, none, some ⟨true⟩⟩

/-- A snapshot of an empty captured state. -/
def snapC1 : Snapshot := ⟨"s1", ⟨some [], [], []⟩, []⟩

/-- Environment in which every adapter call succeeds but the managed unit
reads back inactive, so only the systemd verification flag fails. -/
def envC1 : Env :=
  ⟨[("ab", pC1)], .ok ⟨some [], [], []⟩, .ok snapC1, fun _ => some snapC1,
   fun _ => .ok "", fun _ _ => none, fun _ => none, fun _ => .error "e",
   fun _ _ _ => none, .error "e", .ok [], fun _ _ => none,
   none, none, none, false, false, fun _ => none⟩

/-- A valid profile that sets one sysctl key. -/
def pC1w : Profile :=
  ⟨"ab", "x", "low", some [("net.core.rmem_max", .str "16777216")], none, none⟩

/-- Environment in which the sysctl write is accepted but the re-read
still returns the old value, so sysctl verification fails; rollback
succeeds. -/
def envC1w : Env :=
  ⟨[("ab", pC1w)], .ok ⟨some [], [], []⟩, .ok snapC1, fun _ => some snapC1,
   fun _ => .ok "212992", fun _ _ => none, fun _ => none, fun _ => .error "e",
   fun _ _ _ => none, .error "e", .ok [], fun _ _ => none,
   none, none, none, true, true, fun _ => none⟩

/-! ## Concrete instances used to test apply sequencing -/

/-- A valid profile requesting a qdisc on all interfaces plus the
persistence service. -/
def pC2 : Profile := ⟨"ab", "x", "low", none, some ⟨"fq", "all", none⟩, some ⟨true⟩⟩

/-- A snapshot of an empty captured state. -/
def snapC2 : Snapshot := ⟨"s2", ⟨some [], [], []⟩, []⟩

/-- Environment in which every apply step succeeds except enabling the
persistence unit, and every verification read matches the profile. -/
def envC2 : Env :=
  ⟨[("ab", pC2)], .ok ⟨some [], [("eth0", some ⟨"pfifo_fast", "0", []⟩)], []⟩,
   .ok snapC2, fun _ => some snapC2, fun _ => .ok "", fun _ _ => none,
   fun _ => none, fun _ => .ok ⟨"fq", "0", []⟩, fun _ _ _ => none,
   .error "e", .ok ["eth0"], fun _ _ => none,
   none, some "enable failed", none, true, true, fun _ => none⟩

/-- `envC2` with the per-interface qdisc set failing instead. -/
def envC2w : Env :=
  { envC2 with qdiscSet := fun _ _ _ => some "tc replace failed" }

/-! ## Lemmas: whitespace normalisation -/

theorem length_replaceDoubleSpace_le : ∀ l : List Char,
    (replaceDoubleSpace l).length ≤ l.length
  | [] => by simp [replaceDoubleSpace]
  | [c] => by simp [replaceDoubleSpace]
  | c :: d :: rest => by
      rw [replaceDoubleSpace]
      split
      · have ih := length_replaceDoubleSpace_le rest
        simp only [List.length_cons]
        omega
      · have ih := length_replaceDoubleSpace_le (d :: rest)
        simp only [List.length_cons] at ih ⊢
        omega

theorem length_replaceDoubleSpace_lt : ∀ l : List Char,
    hasDoubleSpace l = true → (replaceDoubleSpace l).length < l.length
  | [] => by intro h; simp [hasDoubleSpace] at h
  | [c] => by intro h; simp [hasDoubleSpace] at h
  | c :: d :: rest => by
      intro h
      rw [hasDoubleSpace] at h
      rw [replaceDoubleSpace]
      split
      · have := length_replaceDoubleSpace_le rest
        simp only [List.length_cons]
        omega
      · rename_i hcd
        rw [if_neg hcd] at h
        have := length_replaceDoubleSpace_lt (d :: rest) h
        simp only [List.length_cons] at this ⊢
        omega

theorem mem_of_mem_replaceDoubleSpace : ∀ l : List Char, ∀ a : Char,
    a ∈ replaceDoubleSpace l → a ∈ l
  | [], _, h => by simp [replaceDoubleSpace] at h
  | [c], _, h => by simpa [replaceDoubleSpace] using h
  | c :: d :: rest, a, h => by
      rw [replaceDoubleSpace] at h
      split at h
      · rename_i hcd
        rcases List.mem_cons.mp h with h1 | h2
        · subst h1; simp [hcd.1]
        · exact List.mem_cons_of_mem _ (List.mem_cons_of_mem _
            (mem_of_mem_replaceDoubleSpace rest a h2))
      · rcases List.mem_cons.mp h with h1 | h2
        · subst h1; simp
        · exact List.mem_cons_of_mem _ (mem_of_mem_replaceDoubleSpace (d :: rest) a h2)

theorem hasDoubleSpace_iff_two_spaces : ∀ l : List Char,
    hasDoubleSpace l = true ↔ [' ', ' '] <:+: l
  | [] => by
      simp only [hasDoubleSpace, List.infix_nil]
      simp
  | [c] => by
      simp only [hasDoubleSpace]
      constructor
      · intro h; cases h
      · intro h
        have := h.length_le
        simp at this
  | c :: d :: rest => by
      rw [hasDoubleSpace]
      split
      · rename_i hcd
        simp only [true_iff]
        exact ⟨[], rest, by simp [hcd.1, hcd.2]⟩
      · rename_i hcd
        rw [hasDoubleSpace_iff_two_spaces (d :: rest)]
        constructor
        · exact fun h => List.infix_cons h
        · rintro ⟨s, t, hst⟩
          match s, hst with
          | [], hst =>
              exfalso
              simp only [List.nil_append, List.cons_append, List.cons.injEq] at hst
              exact hcd ⟨hst.1.symm, hst.2.1.symm⟩
          | a :: s', hst =>
              simp only [List.cons_append, List.cons.injEq] at hst
              exact ⟨s', t, hst.2⟩

theorem hasDoubleSpace_collapseLoop : ∀ (fuel : Nat) (l : List Char),
    l.length ≤ fuel → hasDoubleSpace (collapseLoop fuel l) = false
  | 0, l, h => by
      have : l = [] := List.eq_nil_of_length_eq_zero (Nat.le_zero.mp h)
      subst this
      simp [collapseLoop, hasDoubleSpace]
  | fuel + 1, l, h => by
      rw [collapseLoop]
      split
      · rename_i hd
        exact hasDoubleSpace_collapseLoop fuel _
          (by have := length_replaceDoubleSpace_lt l hd; omega)
      · rename_i hd
        exact Bool.not_eq_true _ ▸ (Bool.of_not_eq_true hd)

theorem mem_of_mem_collapseLoop : ∀ (fuel : Nat) (l : List Char) (a : Char),
    a ∈ collapseLoop fuel l → a ∈ l
  | 0, l, a, h => h
  | fuel + 1, l, a, h => by
      rw [collapseLoop] at h
      split at h
      · exact mem_of_mem_replaceDoubleSpace l a (mem_of_mem_collapseLoop fuel _ a h)
      · exact h

theorem collapseLoop_of_no_double (fuel : Nat) (l : List Char)
    (h : hasDoubleSpace l = false) : collapseLoop fuel l = l := by
  cases fuel with
  | zero => rfl
  | succ fuel => rw [collapseLoop, if_neg (by simp [h])]

theorem tab_not_mem_replaceTabs (l : List Char) : '\t' ∉ replaceTabs l := by
  intro h
  rcases List.mem_map.mp h with ⟨c, _, hc⟩
  by_cases hct : c = '\t'
  · rw [if_pos hct] at hc
    exact absurd hc (by decide)
  · rw [if_neg hct] at hc
    exact hct hc

theorem replaceTabs_eq_self (l : List Char) (h : '\t' ∉ l) : replaceTabs l = l := by
  induction l with
  | nil => rfl
  | cons c rest ih =>
      have hc : c ≠ '\t' := fun hc => h (hc ▸ List.mem_cons_self c rest)
      simp only [replaceTabs, List.map_cons, if_neg hc]
      have := ih (fun hm => h (List.mem_cons_of_mem c hm))
      simpa [replaceTabs] using this

theorem trimRightSpace_eq_rdropWhile (l : List Char) :
    trimRightSpace l = List.rdropWhile goIsSpace l := rfl

theorem trimSpace_within (l : List Char) : trimSpace l <:+: l := by
  have h1 : trimLeftSpace l <:+ l := List.dropWhile_suffix _
  have h2 : trimRightSpace (trimLeftSpace l) <+: trimLeftSpace l := by
    rw [trimRightSpace_eq_rdropWhile]
    exact List.rdropWhile_prefix _ _
  exact h2.isInfix.trans h1.isInfix

theorem dropWhile_of_dropWhile_eq_self (p : Char → Bool) (z : List Char)
    (h : z.dropWhile p = z) : (List.rdropWhile p z).dropWhile p = List.rdropWhile p z := by
  cases hr : List.rdropWhile p z with
  | nil => simp
  | cons a t =>
      rcases (hr ▸ List.rdropWhile_prefix p z) with ⟨s, hs⟩
      have hz : z = a :: (t ++ s) := by rw [← hs]; simp
      have hpa : ¬ p a := by
        intro hpa
        rw [hz, List.dropWhile_cons, if_pos hpa] at h
        have := congrArg List.length h
        have hle : ((t ++ s).dropWhile p).length ≤ (t ++ s).length :=
          (List.dropWhile_suffix p).length_le
        rw [List.length_cons] at this
        omega
      rw [List.dropWhile_cons, if_neg hpa]

theorem trimLeftSpace_trimSpace (l : List Char) :
    trimLeftSpace (trimSpace l) = trimSpace l := by
  show (trimRightSpace (trimLeftSpace l)).dropWhile goIsSpace = trimRightSpace (trimLeftSpace l)
  rw [trimRightSpace_eq_rdropWhile]
  exact dropWhile_of_dropWhile_eq_self goIsSpace (trimLeftSpace l)
    (List.dropWhile_idempotent _ _)

theorem trimRightSpace_trimSpace (l : List Char) :
    trimRightSpace (trimSpace l) = trimSpace l := by
  show trimRightSpace (trimRightSpace (trimLeftSpace l)) = trimRightSpace (trimLeftSpace l)
  rw [trimRightSpace_eq_rdropWhile, trimRightSpace_eq_rdropWhile]
  exact List.rdropWhile_idempotent _ _

theorem trimSpace_idem (l : List Char) : trimSpace (trimSpace l) = trimSpace l := by
  show trimRightSpace (trimLeftSpace (trimSpace l)) = trimSpace l
  rw [trimLeftSpace_trimSpace, trimRightSpace_trimSpace]

theorem tab_not_mem_normalizeChars (l : List Char) : '\t' ∉ normalizeChars l := by
  intro h
  have h1 : '\t' ∈ collapseLoop (replaceTabs l).length (replaceTabs l) :=
    (trimSpace_within _).subset h
  exact tab_not_mem_replaceTabs l (mem_of_mem_collapseLoop _ _ _ h1)

theorem no_double_normalizeChars (l : List Char) :
    hasDoubleSpace (normalizeChars l) = false := by
  cases hcase : hasDoubleSpace (normalizeChars l) with
  | false => rfl
  | true =>
      exfalso
      have hinf : [' ', ' '] <:+: collapseLoop (replaceTabs l).length (replaceTabs l) :=
        ((hasDoubleSpace_iff_two_spaces _).mp hcase).trans (trimSpace_within _)
      have := (hasDoubleSpace_iff_two_spaces _).mpr hinf
      rw [hasDoubleSpace_collapseLoop _ _ le_rfl] at this
      cases this

theorem trimSpace_normalizeChars (l : List Char) :
    trimSpace (normalizeChars l) = normalizeChars l :=
  trimSpace_idem _

theorem normalizeChars_idem (l : List Char) :
    normalizeChars (normalizeChars l) = normalizeChars l := by
  show trimSpace (collapseLoop (replaceTabs (normalizeChars l)).length
      (replaceTabs (normalizeChars l))) = normalizeChars l
  rw [replaceTabs_eq_self _ (tab_not_mem_normalizeChars l),
      collapseLoop_of_no_double _ _ (no_double_normalizeChars l),
      trimSpace_normalizeChars]

/-! ## Lemmas: decimal rendering -/

theorem parseDigits_append (l₁ l₂ : List Char) : ∀ acc : Nat,
    parseDigits acc (l₁ ++ l₂) =
      (parseDigits acc l₁).bind fun a => parseDigits a l₂ := by
  induction l₁ with
  | nil => intro acc; simp [parseDigits]
  | cons c cs ih =>
      intro acc
      rw [List.cons_append, parseDigits, parseDigits]
      split
      · exact ih _
      · rfl

theorem digitChar_isDigit (d : Nat) (h : d < 10) : (digitChar d).isDigit = true := by
  interval_cases d <;> decide

theorem digitChar_toNat (d : Nat) (h : d < 10) : (digitChar d).toNat - 48 = d := by
  interval_cases d <;> decide

theorem digitChar_ne_e (d : Nat) (h : d < 10) : digitChar d ≠ 'e' := by
  interval_cases d <;> decide

theorem parseDigits_renderNatAux : ∀ fuel m acc : Nat, m ≤ fuel →
    ∃ k, parseDigits acc (renderNatAux fuel m) = some (acc * 10 ^ k + m)
  | 0, m, acc, h => ⟨0, by
      have hm : m = 0 := Nat.le_zero.mp h
      subst hm
      simp [renderNatAux, parseDigits]⟩
  | fuel + 1, m, acc, h => by
      by_cases hm : m = 0
      · subst hm
        exact ⟨0, by simp [renderNatAux, parseDigits]⟩
      · have hdiv : m / 10 ≤ fuel := by
          have := Nat.div_lt_self (Nat.pos_of_ne_zero hm) (by norm_num : 1 < 10)
          omega
        obtain ⟨k, hk⟩ := parseDigits_renderNatAux fuel (m / 10) acc hdiv
        refine ⟨k + 1, ?_⟩
        rw [renderNatAux, if_neg hm, parseDigits_append, hk]
        show parseDigits (acc * 10 ^ k + m / 10) [digitChar (m % 10)] =
          some (acc * 10 ^ (k + 1) + m)
        have h10 : m % 10 < 10 := Nat.mod_lt _ (by norm_num)
        rw [parseDigits, if_pos (digitChar_isDigit _ h10), parseDigits,
            digitChar_toNat _ h10]
        congr 1
        have hm10 : 10 * (m / 10) + m % 10 = m := Nat.div_add_mod m 10
        calc 10 * (acc * 10 ^ k + m / 10) + m % 10
            = acc * 10 ^ (k + 1) + (10 * (m / 10) + m % 10) := by ring
          _ = acc * 10 ^ (k + 1) + m := by rw [hm10]

theorem renderNatAux_ne_nil (fuel m : Nat) (hm : m ≠ 0) (hf : fuel ≠ 0) :
    renderNatAux fuel m ≠ [] := by
  cases fuel with
  | zero => exact absurd rfl hf
  | succ fuel =>
      rw [renderNatAux, if_neg hm]
      simp

theorem mem_renderNatAux : ∀ fuel m : Nat, ∀ c ∈ renderNatAux fuel m,
    ∃ d, d < 10 ∧ c = digitChar d
  | 0, m => by intro c hc; simp [renderNatAux] at hc
  | fuel + 1, m => by
      intro c hc
      rw [renderNatAux] at hc
      split at hc
      · simp at hc
      · rcases List.mem_append.mp hc with h1 | h2
        · exact mem_renderNatAux fuel (m / 10) c h1
        · refine ⟨m % 10, Nat.mod_lt _ (by norm_num), ?_⟩
          simpa using h2

theorem parseNat_renderNat (m : Nat) : parseNat (renderNat m) = some m := by
  by_cases hm : m = 0
  · subst hm; decide
  · rw [renderNat, if_neg hm]
    have hne : renderNatAux m m ≠ [] := renderNatAux_ne_nil m m hm hm
    show parseNat ⟨renderNatAux m m⟩ = some m
    rw [parseNat, if_neg (by simpa using hne)]
    obtain ⟨k, hk⟩ := parseDigits_renderNatAux m m 0 le_rfl
    simpa using hk

theorem renderNat_no_e (m : Nat) : ∀ c ∈ (renderNat m).data, c ≠ 'e' := by
  by_cases hm : m = 0
  · subst hm; decide
  · rw [renderNat, if_neg hm]
    intro c hc
    obtain ⟨d, hd, hcd⟩ := mem_renderNatAux m m c hc
    exact hcd ▸ digitChar_ne_e d hd

/-! ## Lemmas: validation -/

theorem validate_eq_none_iff (p : Profile) :
    Validate p = none ↔ validateErrors p = [] := by
  rw [Validate]
  cases h : validateErrors p <;> simp

/-! ## Lemmas: trace ordering -/

theorem pairwise_le_append_blocks {l₁ l₂ : List Nat} (b : Nat)
    (h₁ : List.Pairwise (· ≤ ·) l₁) (h₂ : List.Pairwise (· ≤ ·) l₂)
    (hb₁ : ∀ x ∈ l₁, x ≤ b) (hb₂ : ∀ x ∈ l₂, b ≤ x) :
    List.Pairwise (· ≤ ·) (l₁ ++ l₂) :=
  List.pairwise_append.mpr ⟨h₁, h₂, fun a ha c hc => le_trans (hb₁ a ha) (hb₂ c hc)⟩

theorem pairwise_le_of_const {l : List Nat} {c : Nat} (hc : ∀ x ∈ l, x = c) :
    List.Pairwise (· ≤ ·) l := by
  induction l with
  | nil => exact List.Pairwise.nil
  | cons a t ih =>
      refine List.Pairwise.cons (fun b hb => ?_)
        (ih fun x hx => hc x (List.mem_cons_of_mem a hx))
      rw [hc a (List.mem_cons_self a t), hc b (List.mem_cons_of_mem a hb)]

theorem applySysctl_trace (env : Env) (p : Profile) :
    (applySysctl env p).2 = [] ∨
    (applySysctl env p).2 = [Event.sysctlWriteFile sysctlConfPath] ∨
    (applySysctl env p).2 = [Event.sysctlWriteFile sysctlConfPath, Event.sysctlSetMultiple] := by
  rw [applySysctl.eq_def]
  cases p.sysctl with
  | none => left; rfl
  | some m =>
      dsimp only
      cases env.sysctlWriteFile sysctlConfPath (m.map fun kv => (kv.1, formatSysctlValue kv.2)) with
      | some e => right; left; rfl
      | none =>
          cases env.sysctlSetMultiple (m.map fun kv => (kv.1, formatSysctlValue kv.2)) with
          | some e => right; right; rfl
          | none => right; right; rfl

theorem ensureQdiscServiceStep_trace (env : Env) :
    (ensureQdiscServiceStep env).2 = [Event.osWriteFile nettuneQdiscScriptPath 493] ∨
    (ensureQdiscServiceStep env).2 =
      [Event.osWriteFile nettuneQdiscScriptPath 493, Event.systemdCreateUnit] ∨
    (ensureQdiscServiceStep env).2 =
      [Event.osWriteFile nettuneQdiscScriptPath 493, Event.systemdCreateUnit,
       Event.systemdEnable] ∨
    (ensureQdiscServiceStep env).2 =
      [Event.osWriteFile nettuneQdiscScriptPath 493, Event.systemdCreateUnit,
       Event.systemdEnable, Event.systemdStart] := by
  rw [ensureQdiscServiceStep.eq_def]
  cases env.osWriteFile nettuneQdiscScriptPath with
  | some e => left; rfl
  | none =>
      cases env.systemdCreateUnit with
      | some e => right; left; rfl
      | none =>
          cases env.systemdEnable with
          | some e => right; right; left; rfl
          | none =>
              cases env.systemdStart with
              | some e => right; right; right; rfl
              | none => right; right; right; rfl

theorem setAllQdiscs_trace (env : Env) (q : QdiscConfig) : ∀ ifaces : List String,
    ∀ e ∈ (setAllQdiscs env q ifaces).2, ∃ i, e = Event.qdiscSet i
  | [] => by intro e he; simp [setAllQdiscs] at he
  | i :: rest => by
      intro e he
      rw [setAllQdiscs.eq_def] at he
      dsimp only at he
      cases h : env.qdiscSet i q.type q.params with
      | some err =>
          rw [h] at he
          simp at he
          exact ⟨i, he⟩
      | none =>
          rw [h] at he
          simp only [List.mem_cons] at he
          rcases he with he | he
          · exact ⟨i, he⟩
          · exact setAllQdiscs_trace env q rest e he

theorem pairwise_rank_blocks (t1 t2 t3 t4 : List Event)
    (h1 : ∀ x ∈ t1.filterMap applyStepRank, x = 2)
    (h2 : ∀ x ∈ t2.filterMap applyStepRank, x = 3)
    (h3 : ∀ x ∈ t3.filterMap applyStepRank, x = 4)
    (h4s : List.Pairwise (· ≤ ·) (t4.filterMap applyStepRank))
    (h4 : ∀ x ∈ t4.filterMap applyStepRank, 5 ≤ x) :
    List.Pairwise (· ≤ ·) ((t1 ++ t2 ++ t3 ++ t4).filterMap applyStepRank) ∧
    ∀ x ∈ (t1 ++ t2 ++ t3 ++ t4).filterMap applyStepRank, 2 ≤ x := by
  rw [List.filterMap_append, List.filterMap_append, List.filterMap_append]
  constructor
  · have p12 := pairwise_le_append_blocks 2 (pairwise_le_of_const h1)
      (pairwise_le_of_const h2)
      (fun x hx => Nat.le_of_eq (h1 x hx))
      (fun x hx => by rw [h2 x hx]; omega)
    have p123 := pairwise_le_append_blocks 4 p12 (pairwise_le_of_const h3)
      (fun x hx => by
        rcases List.mem_append.mp hx with h | h
        · rw [h1 x h]; omega
        · rw [h2 x h]; omega)
      (fun x hx => Nat.le_of_eq (h3 x hx).symm)
    refine pairwise_le_append_blocks 4 p123 h4s ?_
      (fun x hx => by have := h4 x hx; omega)
    intro x hx
    rcases List.mem_append.mp hx with h | h
    · rcases List.mem_append.mp h with h' | h'
      · rw [h1 x h']; omega
      · rw [h2 x h']; omega
    · rw [h3 x h]
  · intro x hx
    rcases List.mem_append.mp hx with h | h
    · rcases List.mem_append.mp h with h' | h'
      · rcases List.mem_append.mp h' with h'' | h''
        · rw [h1 x h'']
        · rw [h2 x h'']; omega
      · rw [h3 x h']; omega
    · have := h4 x h; omega

theorem applyQdisc_trace_shape (env : Env) (p : Profile) :
    (applyQdisc env p).2 = [] ∨
    ∃ t1 t2 t3 t4 : List Event,
      (applyQdisc env p).2 = t1 ++ t2 ++ t3 ++ t4 ∧
      (t1 = [] ∨ t1 = [Event.qdiscValidateParams]) ∧
      (t2 = [] ∨ t2 = [Event.qdiscGetDefaultRoute] ∨ t2 = [Event.qdiscListIfaces]) ∧
      (∀ e ∈ t3, ∃ i, e = Event.qdiscSet i) ∧
      (t4 = [] ∨ t4 = (ensureQdiscServiceStep env).2) := by
  rw [applyQdisc.eq_def]
  cases hq : p.qdisc with
  | none => left; rfl
  | some q =>
      dsimp only
      right
      have hcont : ∀ tr : List Event,
          (tr = [] ∨ tr = [Event.qdiscValidateParams]) →
          ∃ t1 t2 t3 t4 : List Event,
            (match
              (if q.interfaces = "default-route" then
                match env.qdiscDefaultRoute with
                | .ok i => Except.ok ([i], [Event.qdiscGetDefaultRoute])
                | .error e =>
                    Except.error ("failed to get default route interface: " ++ e,
                      [Event.qdiscGetDefaultRoute])
              else
                match env.qdiscListInterfaces with
                | .ok l => Except.ok (l, [Event.qdiscListIfaces])
                | .error e =>
                    Except.error ("failed to list interfaces: " ++ e,
                      [Event.qdiscListIfaces])) with
            | .error (e, tr2) => (some e, tr ++ tr2)
            | .ok (interfaces, tr2) =>
                match setAllQdiscs env q interfaces with
                | (some e, tr3) => (some e, tr ++ tr2 ++ tr3)
                | (none, tr3) =>
                    match p.systemd with
                    | some sd =>
                        if sd.ensureQdiscService then
                          (none, tr ++ tr2 ++ tr3 ++ (ensureQdiscServiceStep env).2)
                        else (none, tr ++ tr2 ++ tr3)
                    | none => (none, tr ++ tr2 ++ tr3) : StepResult).2 =
              t1 ++ t2 ++ t3 ++ t4 ∧
            (t1 = [] ∨ t1 = [Event.qdiscValidateParams]) ∧
            (t2 = [] ∨ t2 = [Event.qdiscGetDefaultRoute] ∨ t2 = [Event.qdiscListIfaces]) ∧
            (∀ e ∈ t3, ∃ i, e = Event.qdiscSet i) ∧
            (t4 = [] ∨ t4 = (ensureQdiscServiceStep env).2) := by
        intro tr htr
        have hrest : ∀ (tr2 : List Event) (interfaces : List String),
            (tr2 = [Event.qdiscGetDefaultRoute] ∨ tr2 = [Event.qdiscListIfaces]) →
            ∃ t1 t2 t3 t4 : List Event,
              (match setAllQdiscs env q interfaces with
              | (some e, tr3) => (some e, tr ++ tr2 ++ tr3)
              | (none, tr3) =>
                  match p.systemd with
                  | some sd =>
                      if sd.ensureQdiscService then
                        (none, tr ++ tr2 ++ tr3 ++ (ensureQdiscServiceStep env).2)
                      else (none, tr ++ tr2 ++ tr3)
                  | none => (none, tr ++ tr2 ++ tr3) : StepResult).2 =
                t1 ++ t2 ++ t3 ++ t4 ∧
              (t1 = [] ∨ t1 = [Event.qdiscValidateParams]) ∧
              (t2 = [] ∨ t2 = [Event.qdiscGetDefaultRoute] ∨ t2 = [Event.qdiscListIfaces]) ∧
              (∀ e ∈ t3, ∃ i, e = Event.qdiscSet i) ∧
              (t4 = [] ∨ t4 = (ensureQdiscServiceStep env).2) := by
          intro tr2 interfaces htr2
          cases hsa : setAllQdiscs env q interfaces with
          | mk o tr3 =>
              have ht3 : ∀ e ∈ tr3, ∃ i, e = Event.qdiscSet i := by
                intro e he
                exact setAllQdiscs_trace env q interfaces e (by rw [hsa]; exact he)
              cases o with
              | some e =>
                  dsimp only
                  exact ⟨tr, tr2, tr3, [], by simp, htr, Or.inr htr2, ht3, Or.inl rfl⟩
              | none =>
                  dsimp only
                  cases hsd : p.systemd with
                  | none =>
                      dsimp only
                      exact ⟨tr, tr2, tr3, [], by simp, htr, Or.inr htr2, ht3, Or.inl rfl⟩
                  | some sd =>
                      dsimp only
                      split
                      · exact ⟨tr, tr2, tr3, (ensureQdiscServiceStep env).2, rfl,
                          htr, Or.inr htr2, ht3, Or.inr rfl⟩
                      · exact ⟨tr, tr2, tr3, [], by simp, htr, Or.inr htr2, ht3,
                          Or.inl rfl⟩
        by_cases hi : q.interfaces = "default-route"
        · rw [if_pos hi]
          cases hres : env.qdiscDefaultRoute with
          | error e =>
              exact ⟨tr, [Event.qdiscGetDefaultRoute], [], [], by simp, htr,
                Or.inr (Or.inl rfl), by simp, Or.inl rfl⟩
          | ok i => exact hrest [Event.qdiscGetDefaultRoute] [i] (Or.inl rfl)
        · rw [if_neg hi]
          cases hres : env.qdiscListInterfaces with
          | error e =>
              exact ⟨tr, [Event.qdiscListIfaces], [], [], by simp, htr,
                Or.inr (Or.inr rfl), by simp, Or.inl rfl⟩
          | ok l => exact hrest [Event.qdiscListIfaces] l (Or.inr rfl)
      cases hparams : q.params with
      | none =>
          dsimp only
          exact hcont [] (Or.inl rfl)
      | some ps =>
          dsimp only
          cases hv : env.qdiscValidateParams q.type ps with
          | some e =>
              dsimp only
              exact ⟨[Event.qdiscValidateParams], [], [], [], by simp,
                Or.inr rfl, Or.inl rfl, by simp, Or.inl rfl⟩
          | none =>
              dsimp only
              exact hcont [Event.qdiscValidateParams] (Or.inr rfl)

theorem applyChanges_ordered (env : Env) (p : Profile) :
    rankedOrdered applyStepRank (applyChanges env p).2 := by
  rw [rankedOrdered, applyChanges.eq_def]
  cases hs : applySysctl env p with
  | mk o tr =>
      have htr : tr = [] ∨ tr = [Event.sysctlWriteFile sysctlConfPath] ∨
          tr = [Event.sysctlWriteFile sysctlConfPath, Event.sysctlSetMultiple] := by
        have h := applySysctl_trace env p
        rw [hs] at h
        exact h
      cases o with
      | some e =>
          dsimp only
          rcases htr with h | h | h <;> rw [h] <;> decide
      | none =>
          dsimp only
          rcases applyQdisc_trace_shape env p with h | ⟨t1, t2, t3, t4, he, h1, h2, h3, h4⟩
          · rw [h, List.append_nil]
            rcases htr with h' | h' | h' <;> rw [h'] <;> decide
          · rw [he]
            have hb1 : ∀ x ∈ t1.filterMap applyStepRank, x = 2 := by
              rcases h1 with rfl | rfl <;> decide
            have hb2 : ∀ x ∈ t2.filterMap applyStepRank, x = 3 := by
              rcases h2 with rfl | rfl | rfl <;> decide
            have hb3 : ∀ x ∈ t3.filterMap applyStepRank, x = 4 := by
              intro x hx
              rcases List.mem_filterMap.mp hx with ⟨e, he', hr⟩
              obtain ⟨i, rfl⟩ := h3 e he'
              simp [applyStepRank] at hr
              omega
            have hb4s : List.Pairwise (· ≤ ·) (t4.filterMap applyStepRank) := by
              rcases h4 with rfl | he4
              · decide
              · rw [he4]
                rcases ensureQdiscServiceStep_trace env with h' | h' | h' | h' <;>
                  rw [h'] <;> decide
            have hb4 : ∀ x ∈ t4.filterMap applyStepRank, 5 ≤ x := by
              rcases h4 with rfl | he4
              · decide
              · rw [he4]
                rcases ensureQdiscServiceStep_trace env with h' | h' | h' | h' <;>
                  rw [h'] <;> decide
            have hblocks := pairwise_rank_blocks t1 t2 t3 t4 hb1 hb2 hb3 hb4s hb4
            rw [List.filterMap_append]
            refine pairwise_le_append_blocks 2 ?_ hblocks.1 ?_ hblocks.2
            · rcases htr with h' | h' | h' <;> rw [h'] <;> decide
            · rcases htr with h' | h' | h' <;> rw [h'] <;> decide

theorem setAllQdiscs_oracle_congr (env env' : Env) (q : QdiscConfig)
    (hset : env'.qdiscSet = env.qdiscSet) : ∀ l : List String,
    setAllQdiscs env' q l = setAllQdiscs env q l
  | [] => rfl
  | i :: rest => by
      rw [setAllQdiscs.eq_def, setAllQdiscs.eq_def]
      dsimp only
      rw [hset]
      cases env.qdiscSet i q.type q.params with
      | some e => rfl
      | none => rw [setAllQdiscs_oracle_congr env env' q hset rest]

theorem applyQdisc_fst_oracle_congr (env env' : Env) (p : Profile)
    (hval : env'.qdiscValidateParams = env.qdiscValidateParams)
    (hdr : env'.qdiscDefaultRoute = env.qdiscDefaultRoute)
    (hli : env'.qdiscListInterfaces = env.qdiscListInterfaces)
    (hset : env'.qdiscSet = env.qdiscSet) :
    (applyQdisc env' p).1 = (applyQdisc env p).1 := by
  rw [applyQdisc.eq_def, applyQdisc.eq_def]
  dsimp only
  cases hq : p.qdisc with
  | none => rfl
  | some q =>
      dsimp only
      cases hparams : q.params with
      | none =>
          dsimp only
          rw [hdr, hli]
          by_cases hi : q.interfaces = "default-route"
          · rw [if_pos hi]
            cases env.qdiscDefaultRoute with
            | error e => rfl
            | ok i =>
                dsimp only
                rw [setAllQdiscs_oracle_congr env env' q hset [i]]
                cases setAllQdiscs env q [i] with
                | mk o tr3 =>
                    cases o with
                    | some e => rfl
                    | none =>
                        dsimp only
                        cases p.systemd with
                        | none => rfl
                        | some sd =>
                            dsimp only
                            cases sd.ensureQdiscService <;> rfl
          · rw [if_neg hi]
            cases env.qdiscListInterfaces with
            | error e => rfl
            | ok l =>
                dsimp only
                rw [setAllQdiscs_oracle_congr env env' q hset l]
                cases setAllQdiscs env q l with
                | mk o tr3 =>
                    cases o with
                    | some e => rfl
                    | none =>
                        dsimp only
                        cases p.systemd with
                        | none => rfl
                        | some sd =>
                            dsimp only
                            cases sd.ensureQdiscService <;> rfl
      | some ps =>
          dsimp only
          rw [hval]
          cases env.qdiscValidateParams q.type ps with
          | some e => rfl
          | none =>
              dsimp only
              rw [hdr, hli]
              by_cases hi : q.interfaces = "default-route"
              · rw [if_pos hi]
                cases env.qdiscDefaultRoute with
                | error e => rfl
                | ok i =>
                    dsimp only
                    rw [setAllQdiscs_oracle_congr env env' q hset [i]]
                    cases setAllQdiscs env q [i] with
                    | mk o tr3 =>
                        cases o with
                        | some e => rfl
                        | none =>
                            dsimp only
                            cases p.systemd with
                            | none => rfl
                            | some sd =>
                            dsimp only
                            cases sd.ensureQdiscService <;> rfl
              · rw [if_neg hi]
                cases env.qdiscListInterfaces with
                | error e => rfl
                | ok l =>
                    dsimp only
                    rw [setAllQdiscs_oracle_congr env env' q hset l]
                    cases setAllQdiscs env q l with
                    | mk o tr3 =>
                        cases o with
                        | some e => rfl
                        | none =>
                            dsimp only
                            cases p.systemd with
                            | none => rfl
                            | some sd =>
                            dsimp only
                            cases sd.ensureQdiscService <;> rfl

theorem applyChanges_fst_oracle_congr (env env' : Env) (p : Profile)
    (hw : env'.sysctlWriteFile = env.sysctlWriteFile)
    (hsm : env'.sysctlSetMultiple = env.sysctlSetMultiple)
    (hval : env'.qdiscValidateParams = env.qdiscValidateParams)
    (hdr : env'.qdiscDefaultRoute = env.qdiscDefaultRoute)
    (hli : env'.qdiscListInterfaces = env.qdiscListInterfaces)
    (hset : env'.qdiscSet = env.qdiscSet) :
    (applyChanges env' p).1 = (applyChanges env p).1 := by
  rw [applyChanges.eq_def, applyChanges.eq_def]
  have hsys : applySysctl env' p = applySysctl env p := by
    rw [applySysctl.eq_def, applySysctl.eq_def]
    cases p.sysctl with
    | none => rfl
    | some m =>
        dsimp only
        rw [hw, hsm]
  rw [hsys]
  cases applySysctl env p with
  | mk o tr =>
      cases o with
      | some e => rfl
      | none =>
          dsimp only
          exact applyQdisc_fst_oracle_congr env env' p hval hdr hli hset

/-! ## Lemmas: engine traces -/

theorem generatePlanEvents_not_mutating (p : Profile) :
    ∀ e ∈ generatePlanEvents p, e.isMutating = false := by
  intro e he
  cases hq : p.qdisc with
  | none => simp [generatePlanEvents, hq] at he
  | some q =>
      simp only [generatePlanEvents, hq] at he
      split at he <;> simp at he <;> subst he <;> rfl

/-! ## Claim theorems -/

/-- C8: for every integer `n` in `[0, 2^63)`, the rendered sysctl value of
`n` contains no character `e` (never scientific notation) and parses back
to `n`; the numeric value `33554432` renders as the literal string
`"33554432"`. -/
theorem C8_formatSysctlValue_numeric (n : Int) (h0 : 0 ≤ n) (h63 : n < 2 ^ 63) :
    (∀ c ∈ (formatSysctlValue (.int n)).data, c ≠ 'e') ∧
    parseNat (formatSysctlValue (.int n)) = some n.toNat ∧
    formatSysctlValue (.int 33554432) = "33554432" := by
  have hfmt : formatSysctlValue (.int n) = renderNat n.toNat := by
    show renderInt n = _
    rw [renderInt, if_neg (by omega)]
  refine ⟨?_, ?_, by decide⟩
  · rw [hfmt]; exact renderNat_no_e n.toNat
  · rw [hfmt]; exact parseNat_renderNat n.toNat

/-- Witness for C8 at `n = 33554432`. -/
theorem C8_formatSysctlValue_numeric_witness :
    parseNat (formatSysctlValue (.int 33554432)) = some 33554432 :=
  (C8_formatSysctlValue_numeric 33554432 (by decide) (by decide)).2.1

/-- C9: `normalizeSysctlValue` replaces every tab with a space, collapses
runs of spaces to a single space, strips leading and trailing whitespace
(its result is a fixpoint of both trims, is tab-free and has no double
space), and is idempotent; a tab-separated tuple and its space-separated
form normalise to the same string. -/
theorem C9_normalizeSysctlValue_spec :
    (∀ x : String,
      normalizeSysctlValue (normalizeSysctlValue x) = normalizeSysctlValue x ∧
      '\t' ∉ (normalizeSysctlValue x).data ∧
      hasDoubleSpace (normalizeSysctlValue x).data = false ∧
      trimLeftSpace (normalizeSysctlValue x).data = (normalizeSysctlValue x).data ∧
      trimRightSpace (normalizeSysctlValue x).data = (normalizeSysctlValue x).data) ∧
    normalizeSysctlValue "4096\t131072\t16777216" =
      normalizeSysctlValue "4096 131072 16777216" ∧
    normalizeSysctlValue "4096\t131072\t16777216" = "4096 131072 16777216" := by
  refine ⟨fun x => ⟨?_, ?_, ?_, ?_, ?_⟩, by decide, by decide⟩
  · show (⟨normalizeChars (normalizeChars x.data)⟩ : String) = ⟨normalizeChars x.data⟩
    rw [normalizeChars_idem]
  · exact tab_not_mem_normalizeChars x.data
  · exact no_double_normalizeChars x.data
  · exact trimLeftSpace_trimSpace _
  · show trimRightSpace (trimSpace _) = trimSpace _
    exact trimRightSpace_trimSpace _

/-- C7: `Save` succeeds only if `Validate` succeeds; `Validate` rejects
profile IDs failing the regex / length-2 rule, empty names, risk levels
outside {low, medium, high}, qdisc types outside the closed set,
interface selectors other than `default-route` / `all`, and qdisc
parameter names outside the per-type allow-list; all errors are collected
and reported joined, rejecting the profile as a whole. -/
theorem C7_validation_spec :
    (∀ (w : Option String) (p : Profile), Save w p = none → Validate p = none) ∧
    (∀ p : Profile, isValidProfileID p.id = false → Validate p ≠ none) ∧
    (∀ p : Profile, p.name = "" → Validate p ≠ none) ∧
    (∀ p : Profile, p.riskLevel ≠ "low" → p.riskLevel ≠ "medium" →
      p.riskLevel ≠ "high" → Validate p ≠ none) ∧
    (∀ (p : Profile) (q : QdiscConfig), p.qdisc = some q →
      isValidQdiscType q.type = false → Validate p ≠ none) ∧
    (∀ (p : Profile) (q : QdiscConfig), p.qdisc = some q →
      q.interfaces ≠ "default-route" → q.interfaces ≠ "all" → Validate p ≠ none) ∧
    (∀ (p : Profile) (q : QdiscConfig) (ps : List (String × SysctlValue))
        (valid : List String) (kv : String × SysctlValue),
      p.qdisc = some q → q.params = some ps →
      validQdiscParams q.type = some valid → kv ∈ ps →
      valid.contains kv.1 = false → Validate p ≠ none) ∧
    Validate ⟨"BAD", "", "low", none, none, none⟩ =
      some ("validation failed: " ++
        "invalid profile ID format (must be alphanumeric with hyphens)" ++
        "; name is required") := by
  refine ⟨?_, ?_, ?_, ?_, ?_, ?_, ?_, by decide⟩
  · intro w p hs
    rw [Save.eq_def] at hs
    cases hv : Validate p with
    | none => rfl
    | some e => rw [hv] at hs; exact absurd hs (by simp)
  · intro p hid hv
    have h := (validate_eq_none_iff p).mp hv
    simp [validateErrors, hid, List.append_eq_nil] at h
  · intro p hn hv
    have h := (validate_eq_none_iff p).mp hv
    simp [validateErrors, hn, List.append_eq_nil] at h
  · intro p h1 h2 h3 hv
    have h := (validate_eq_none_iff p).mp hv
    simp [validateErrors, h1, h2, h3, List.append_eq_nil] at h
  · intro p q hq ht hv
    have h := (validate_eq_none_iff p).mp hv
    simp [validateErrors, hq, ht, List.append_eq_nil] at h
  · intro p q hq hi1 hi2 hv
    have h := (validate_eq_none_iff p).mp hv
    simp [validateErrors, hq, hi1, hi2, List.append_eq_nil] at h
  · intro p q ps valid kv hq hps hvalid hmem hcont hv
    have htne : q.type ≠ "" := by
      intro ht
      rw [validQdiscParams, ht] at hvalid
      simp at hvalid
    have hkmem : kv.1 ∈ (ps.map Prod.fst).filter fun k => !valid.contains k :=
      List.mem_filter.mpr ⟨List.mem_map.mpr ⟨kv, hmem, rfl⟩,
        by show (!valid.contains kv.1) = true; rw [hcont]; rfl⟩
    have hne : ((ps.map Prod.fst).filter fun k => !valid.contains k).isEmpty = false := by
      cases hfe : ((ps.map Prod.fst).filter fun k => !valid.contains k).isEmpty
      · rfl
      · rw [List.isEmpty_iff] at hfe
        rw [hfe] at hkmem
        cases hkmem
    have hvq : ∃ e, validateQdiscParams q.type ps = some e := by
      unfold validateQdiscParams
      rw [hvalid]
      simp only [hne, Bool.false_eq_true, if_false]
      exact ⟨_, rfl⟩
    obtain ⟨e, hvq⟩ := hvq
    have h := (validate_eq_none_iff p).mp hv
    simp [validateErrors, hq, hps, htne, hvq, List.append_eq_nil] at h

/-- Witness for C7: a concrete valid profile saves and a concrete
disallowed qdisc parameter is rejected, both through the theorem. -/
theorem C7_validation_spec_witness :
    Validate ⟨"bbr-fq", "x", "low", none, none, none⟩ = none ∧
    Validate ⟨"bbr-fq", "x", "low", none,
      some ⟨"fq", "all", some [("bandwidth", .str "1gbit")]⟩, none⟩ ≠ none :=
  ⟨C7_validation_spec.1 none _ (by decide),
   C7_validation_spec.2.2.2.2.2.2.1 _ ⟨"fq", "all", some [("bandwidth", .str "1gbit")]⟩
     [("bandwidth", .str "1gbit")]
     ["limit", "flow_limit", "quantum", "initial_quantum",
      "maxrate", "buckets", "pacing", "nopacing", "refill_delay",
      "low_rate_threshold", "orphan_mask", "timer_slack",
      "ce_threshold", "horizon", "horizon_cap", "horizon_drop"]
     ("bandwidth", .str "1gbit") rfl rfl (by decide) (by decide) (by decide)⟩

/-- C5: while an apply or rollback is in progress (the lock flag is set),
any other `Apply` or `Rollback` fails immediately with
`APPLY_IN_PROGRESS`, emitting no events at all — so no snapshot is created
and nothing is mutated; and lock acquisition is an atomic test-and-set
under the mutex, so of two contending callers exactly one acquires it. -/
theorem C5_lock_exclusion :
    (∀ (env : Env) (req : ApplyRequest),
      Apply env true req = (.error .applyInProgress, [])) ∧
    (∀ (env : Env) (sid : String),
      Rollback env true sid = (.error .applyInProgress, [])) ∧
    tryAcquireLock false = (true, true) ∧
    tryAcquireLock true = (false, true) :=
  ⟨fun _ _ => rfl, fun _ _ => rfl, rfl, rfl⟩

/-- C3: a dry-run apply returns `{success := true, plan}` computed from the
profile and the current state, and — on every path, including the error
paths — emits no mutating event: no snapshot, no file write, no mutating
tc/sysctl/systemctl invocation. -/
theorem C3_dry_run_purity (env : Env) (req : ApplyRequest) (profile : Profile)
    (st : SystemState) (hmode : req.mode = "dry_run")
    (hp : env.profiles.lookup req.profileID = some profile)
    (hval : Validate profile = none) (hst : env.currentState = .ok st) :
    Apply env false req =
      (.ok ⟨req.mode, req.profileID, generatePlan env profile st, "", true, none, [], false⟩,
       Event.getCurrentState :: generatePlanEvents profile) ∧
    (∀ (env' : Env) (req' : ApplyRequest), req'.mode = "dry_run" →
      ∀ e ∈ (Apply env' false req').2, e.isMutating = false) := by
  constructor
  · rw [Apply.eq_def]
    simp [hp, hval, hst, hmode]
  · intro env' req' hmode' e he
    rw [Apply.eq_def] at he
    simp only [Bool.false_eq_true, if_false] at he
    cases hp' : env'.profiles.lookup req'.profileID with
    | none => simp [hp'] at he
    | some prof =>
        cases hv' : Validate prof with
        | some _ => simp [hp', hv'] at he
        | none =>
            cases hs' : env'.currentState with
            | error _ =>
                simp [hp', hv', hs'] at he
                subst he; rfl
            | ok st' =>
                simp only [hp', hv', hs'] at he
                rw [if_pos (show req'.mode = "dry_run" from hmode')] at he
                simp only [List.mem_cons] at he
                rcases he with he | he
                · subst he; rfl
                · exact generatePlanEvents_not_mutating prof e he

/-- Witness for C3 at a concrete environment and request. -/
theorem C3_dry_run_purity_witness :
    (Apply
      ⟨[("p1", ⟨"p1", "n", "low", none, none, none⟩)], .ok ⟨some [], [], []⟩,
       .error "no snapshot", fun _ => none, fun _ => .error "e",
       fun _ _ => none, fun _ => none, fun _ => .error "e",
       fun _ _ _ => none, .error "e", .ok [], fun _ _ => none,
       none, none, none, true, true, fun _ => none⟩
      false ⟨"p1", "dry_run"⟩).1 =
      .ok ⟨"dry_run", "p1", ⟨[], [], []⟩, "", true, none, [], false⟩ := by
  rw [(C3_dry_run_purity _ ⟨"p1", "dry_run"⟩ ⟨"p1", "n", "low", none, none, none⟩
    ⟨some [], [], []⟩ rfl (by decide) (by decide) rfl).1]
  rfl

/-- C4: the plan contains a sysctl entry `{from, to}` for key `k` iff the
normalised current value differs from the normalised rendered new value; a
qdisc entry for a resolved interface iff its current root type differs
from the desired type; a systemd entry iff `ensure_qdisc_service` is
requested and the managed unit is not active — no-op changes never appear.
The plan is by construction a function of the profile, the captured state
and the adapter's interface resolution. -/
theorem C4_generatePlan_characterization (env : Env) (p : Profile) (st : SystemState) :
    (∀ (k : String) (c : Change),
      (k, c) ∈ (generatePlan env p st).sysctlChanges ↔
      ∃ m, p.sysctl = some m ∧ ∃ v, (k, v) ∈ m ∧
        normalizeSysctlValue (lookupSysctl st k) ≠
          normalizeSysctlValue (formatSysctlValue v) ∧
        c = ⟨lookupSysctl st k, formatSysctlValue v⟩) ∧
    (∀ (i : String) (c : Change),
      (i, c) ∈ (generatePlan env p st).qdiscChanges ↔
      ∃ q, p.qdisc = some q ∧ i ∈ (resolveIfacesLenientEv env q).1 ∧
        currentQdiscType st i ≠ q.type ∧ c = ⟨currentQdiscType st i, q.type⟩) ∧
    (∀ (u : String) (c : Change),
      (u, c) ∈ (generatePlan env p st).systemdChanges ↔
      ∃ sd, p.systemd = some sd ∧ sd.ensureQdiscService = true ∧
        unitActive st nettuneQdiscServiceName = false ∧
        u = nettuneQdiscServiceName ∧ c = ⟨"inactive", "active"⟩) := by
  refine ⟨fun k c => ?_, fun i c => ?_, fun u c => ?_⟩
  · cases hm : p.sysctl with
    | none => simp [generatePlan, hm]
    | some m =>
        simp only [generatePlan, hm, List.mem_filterMap]
        constructor
        · rintro ⟨kv, hkv, hf⟩
          by_cases hcond : normalizeSysctlValue (lookupSysctl st kv.1) ≠
              normalizeSysctlValue (formatSysctlValue kv.2)
          · rw [if_pos hcond] at hf
            have hf' := Option.some.inj hf
            rw [Prod.mk.injEq] at hf'
            obtain ⟨hf1, hf2⟩ := hf'
            refine ⟨m, rfl, kv.2, ?_, ?_, hf2.symm ▸ (by rw [hf1])⟩
            · rw [← hf1, Prod.mk.eta]; exact hkv
            · rw [← hf1]; exact hcond
          · rw [if_neg hcond] at hf
            exact absurd hf (by simp)
        · rintro ⟨m', hm', v, hv, hcond, hc⟩
          obtain rfl : m = m' := Option.some.inj hm'
          refine ⟨(k, v), hv, ?_⟩
          rw [if_pos hcond, hc]
  · cases hq : p.qdisc with
    | none => simp [generatePlan, hq]
    | some q =>
        simp only [generatePlan, hq, List.mem_filterMap]
        constructor
        · rintro ⟨iface, hif, hf⟩
          by_cases hcond : currentQdiscType st iface ≠ q.type
          · rw [if_pos hcond] at hf
            have hf' := Option.some.inj hf
            rw [Prod.mk.injEq] at hf'
            obtain ⟨hf1, hf2⟩ := hf'
            subst hf1
            exact ⟨q, rfl, hif, hcond, hf2.symm⟩
          · rw [if_neg hcond] at hf
            exact absurd hf (by simp)
        · rintro ⟨q', hq', hif, hcond, hc⟩
          obtain rfl : q = q' := Option.some.inj hq'
          exact ⟨i, hif, by rw [if_pos hcond, hc]⟩
  · cases hsd : p.systemd with
    | none => simp [generatePlan, hsd]
    | some sd =>
        simp only [generatePlan, hsd]
        split
        · rename_i hcond
          rw [Bool.and_eq_true, Bool.not_eq_true'] at hcond
          simp only [List.mem_singleton, Prod.mk.injEq, Option.some.injEq]
          constructor
          · rintro ⟨hu, hc⟩
            exact ⟨sd, rfl, hcond.1, hcond.2, hu, hc⟩
          · rintro ⟨sd', hsd', _, _, hu, hc⟩
            exact ⟨hu, hc⟩
        · rename_i hcond
          rw [Bool.and_eq_true, Bool.not_eq_true'] at hcond
          simp only [List.not_mem_nil, false_iff]
          rintro ⟨sd', hsd', hens, hact, _, _⟩
          obtain rfl : sd = sd' := Option.some.inj hsd'
          exact hcond ⟨hens, hact⟩

/-- Witness for C4: a concrete differing sysctl key appears in the plan. -/
theorem C4_generatePlan_characterization_witness :
    ("net.core.rmem_max", Change.mk "212992" "16777216") ∈
      (generatePlan
        ⟨[], .error "e", .error "e", fun _ => none, fun _ => .error "e",
         fun _ _ => none, fun _ => none, fun _ => .error "e",
         fun _ _ _ => none, .error "e", .ok [], fun _ _ => none,
         none, none, none, true, true, fun _ => none⟩
        ⟨"p1", "n", "low", some [("net.core.rmem_max", .str "16777216")], none, none⟩
        ⟨some [("net.core.rmem_max", "212992")], [], []⟩).sysctlChanges :=
  ((C4_generatePlan_characterization _ _ _).1 "net.core.rmem_max" _).mpr
    ⟨[("net.core.rmem_max", .str "16777216")], rfl, .str "16777216",
     by decide, by decide, by decide⟩

/-- C10: `rollbackInternal` returns an error only when the snapshot cannot
be loaded; in every other case it returns success and records a rollback
history entry with `success = true` — even when restore steps fail, since
their outcomes are only logged, the reported rollback success never
reflects them. -/
theorem C10_rollbackInternal_result (env : Env) (sid : String) :
    (env.snapshotGet sid = none →
      (rollbackInternal env sid).1 = .error "snapshot not found") ∧
    (∀ snap, env.snapshotGet sid = some snap →
      (rollbackInternal env sid).1 = .ok () ∧
      Event.historyRecordRollback true ∈ (rollbackInternal env sid).2 ∧
      Event.historyRecordRollback false ∉ (rollbackInternal env sid).2) := by
  constructor
  · intro h
    simp [rollbackInternal, h]
  · intro snap h
    refine ⟨by simp [rollbackInternal, h], by simp [rollbackInternal, h], ?_⟩
    intro hmem
    simp only [rollbackInternal, h, List.mem_cons, List.mem_append] at hmem
    rcases hmem with h1 | ((((h2 | h3) | h4) | h5) | h6)
    · cases h1
    · cases hs : snap.state.sysctl <;> rw [hs] at h2 <;> simp at h2
    · simp at h3
    · split at h4 <;> simp at h4
    · rw [List.mem_filterMap] at h5
      obtain ⟨⟨a, b⟩, _, hb⟩ := h5
      cases b <;> simp at hb
    · simp at h6

/-- Witness for C10: a snapshot loads while every restore oracle fails;
the rollback still reports success. -/
theorem C10_rollbackInternal_result_witness :
    (rollbackInternal
      ⟨[], .error "e", .error "e",
       (fun _ => some ⟨"s1", ⟨some [("net.core.rmem_max", "212992")], [("eth0", some ⟨"fq", "0", []⟩)], []⟩,
         [(sysctlConfPath, "old contents")]⟩),
       fun _ => .error "e", fun _ _ => some "write failed",
       fun _ => some "sysctl failed", fun _ => .error "e",
       fun _ _ _ => some "tc failed", .error "e", .error "e",
       fun _ _ => none, none, none, none, true, true,
       fun _ => some "file write failed"⟩
      "s1").1 = .ok () :=
  ((C10_rollbackInternal_result _ "s1").2 _ rfl).1

/-- C6 (counterexample): at a snapshot holding a sysctl map, a backed-up
managed file and a recorded qdisc, the restore events do not follow the
claimed order (backup files, then reload, then sysctl map, then qdisc):
the sysctl map is re-applied first, so the spec-ordered ranks come out as
`[2, 0, 1, 3]`, which is not monotone. -/
theorem C6_rollback_order_counterexample :
    (rollbackInternal envC6 "s1").2.filterMap specRollbackRank = [2, 0, 1, 3] ∧
    ¬ rankedOrdered specRollbackRank (rollbackInternal envC6 "s1").2 := by
  constructor
  · decide
  · rw [rankedOrdered]
    decide

/-- C6 (amended): `rollbackInternal` restores in the order — snapshot's
sysctl map re-applied to the running kernel first, then each backed-up
file written at mode `0644`, then the persistent sysctl reload from the
restored managed file, then each recorded interface's qdisc; restoration
is best-effort: the trace and result are independent of the restore
oracles' outcomes, so an individual step failure never aborts the
subsequent steps. -/
theorem C6_rollback_restore_amended (env : Env) (sid : String) :
    rankedOrdered codeRollbackRank (rollbackInternal env sid).2 ∧
    (∀ (p : String) (m : Nat),
      Event.osWriteFile p m ∈ (rollbackInternal env sid).2 → m = 420) ∧
    (∀ env' : Env, env'.snapshotGet sid = env.snapshotGet sid →
      rollbackInternal env' sid = rollbackInternal env sid) := by
  refine ⟨?_, ?_, ?_⟩
  · rw [rankedOrdered]
    cases h : env.snapshotGet sid with
    | none => simp [rollbackInternal, h, codeRollbackRank]
    | some snap =>
        simp only [rollbackInternal, h, List.filterMap_cons, List.filterMap_append,
          List.append_assoc, codeRollbackRank, List.filterMap_nil, List.append_nil]
        have hA : ∀ x ∈ List.filterMap codeRollbackRank
            (match snap.state.sysctl with
             | some _ => [Event.sysctlSetMultiple]
             | none => ([] : List Event)), x = 0 := by
          intro x hx
          cases hs : snap.state.sysctl <;> rw [hs] at hx <;>
            simp [codeRollbackRank] at hx
          omega
        have hB : ∀ x ∈ List.filterMap codeRollbackRank
            (snap.backups.map fun pc => Event.osWriteFile pc.1 420), x = 1 := by
          intro x hx
          rcases List.mem_filterMap.mp hx with ⟨e, he, hr⟩
          rcases List.mem_map.mp he with ⟨pc, _, rfl⟩
          simp [codeRollbackRank] at hr
          omega
        have hC : ∀ x ∈ List.filterMap codeRollbackRank
            (if (snap.backups.lookup sysctlConfPath).isSome then
              [Event.sysctlLoadFromFile sysctlConfPath]
            else ([] : List Event)), x = 2 := by
          intro x hx
          split at hx <;> simp [codeRollbackRank] at hx
          omega
        have hD : ∀ x ∈ List.filterMap codeRollbackRank
            (snap.state.qdisc.filterMap fun ii =>
              match ii.2 with
              | some _ => some (Event.qdiscSet ii.1)
              | none => none), x = 3 := by
          intro x hx
          rcases List.mem_filterMap.mp hx with ⟨e, he, hr⟩
          rcases List.mem_filterMap.mp he with ⟨⟨a, b⟩, _, hb⟩
          cases b with
          | none => simp at hb
          | some i =>
              simp only [Option.some.injEq] at hb
              rw [← hb] at hr
              simp [codeRollbackRank] at hr
              omega
        have pCD := pairwise_le_append_blocks 2 (pairwise_le_of_const hC)
          (pairwise_le_of_const hD)
          (fun x hx => Nat.le_of_eq (hC x hx))
          (fun x hx => by rw [hD x hx]; omega)
        have pBCD := pairwise_le_append_blocks 1 (pairwise_le_of_const hB) pCD
          (fun x hx => Nat.le_of_eq (hB x hx))
          (fun x hx => by
            rcases List.mem_append.mp hx with h' | h'
            · rw [hC x h']; omega
            · rw [hD x h']; omega)
        exact pairwise_le_append_blocks 0 (pairwise_le_of_const hA) pBCD
          (fun x hx => Nat.le_of_eq (hA x hx)) (fun x _ => Nat.zero_le x)
  · intro p m hm
    cases h : env.snapshotGet sid with
    | none => simp [rollbackInternal, h] at hm
    | some snap =>
        simp only [rollbackInternal, h, List.mem_cons, List.mem_append] at hm
        rcases hm with h1 | ((((h2 | h3) | h4) | h5) | h6)
        · cases h1
        · cases hs : snap.state.sysctl <;> rw [hs] at h2 <;> simp at h2
        · rcases List.mem_map.mp h3 with ⟨pc, _, heq⟩
          simp only [Event.osWriteFile.injEq] at heq
          exact heq.2.symm
        · split at h4 <;> simp at h4
        · rw [List.mem_filterMap] at h5
          obtain ⟨⟨a, b⟩, _, hb⟩ := h5
          cases b <;> simp at hb
        · simp at h6
  · intro env' he
    cases h : env.snapshotGet sid with
    | none =>
        rw [h] at he
        simp [rollbackInternal, h, he]
    | some snap =>
        rw [h] at he
        simp [rollbackInternal, h, he]

/-- Witness for C6: at the concrete snapshot the code-ordered restore
ranks are monotone, and failing every restore oracle changes nothing
about the rollback's trace or result. -/
theorem C6_rollback_restore_amended_witness :
    rankedOrdered codeRollbackRank (rollbackInternal envC6 "s1").2 ∧
    rollbackInternal envC6fail "s1" = rollbackInternal envC6 "s1" :=
  ⟨(C6_rollback_restore_amended envC6 "s1").1,
   (C6_rollback_restore_amended envC6 "s1").2.2 envC6fail rfl⟩

/-- C1 (counterexample): a commit-mode apply whose mutation step succeeded
and whose verification reports `systemd_ok = false` (while sysctl and
qdisc verify) does NOT roll back: it returns `success = true`, records a
successful apply, and emits no rollback event. -/
theorem C1_verification_rollback_counterexample :
    (Apply envC1 false ⟨"ab", "commit"⟩).1 =
      .ok ⟨"commit", "ab",
        ⟨[], [], [(nettuneQdiscServiceName, ⟨"inactive", "active"⟩)]⟩, "s1", true,
        some ⟨true, true, false,
          ["service nettune-qdisc.service is not active or enabled"]⟩,
        [], true⟩ ∧
    Event.historyRecordRollback true ∉ (Apply envC1 false ⟨"ab", "commit"⟩).2 ∧
    Event.snapshotGet "s1" ∉ (Apply envC1 false ⟨"ab", "commit"⟩).2 :=
  ⟨by decide, by decide, by decide⟩

/-- C1 (amended): for a commit-mode apply whose mutation step succeeded,
if post-mutation verification reports `sysctl_ok` or `qdisc_ok` false the
engine calls `rollback_internal(snapshot_id)` (its trace is a suffix of
the apply trace) and returns `success = false`; when that rollback itself
fails, the single error entry reports both the verification failure and
the rollback failure.  A `systemd_ok`-only failure does not trigger
rollback (see the counterexample). -/
theorem C1_verification_rollback_amended (env : Env) (req : ApplyRequest)
    (profile : Profile) (st : SystemState) (snap : Snapshot)
    (applyTr verTr : List Event) (ver : VerificationResult)
    (hp : env.profiles.lookup req.profileID = some profile)
    (hval : Validate profile = none)
    (hst : env.currentState = .ok st)
    (hmode : req.mode ≠ "dry_run")
    (hsnap : env.snapshotCreate = .ok snap)
    (happly : applyChanges env profile = (none, applyTr))
    (hver : verifyChanges env profile = (ver, verTr))
    (hfail : ver.sysctlOK = false ∨ ver.qdiscOK = false) :
    ∃ r, (Apply env false req).1 = .ok r ∧
      r.success = false ∧
      r.verification = some ver ∧
      r.snapshotID = snap.id ∧
      (rollbackInternal env snap.id).2 <:+ (Apply env false req).2 ∧
      ((rollbackInternal env snap.id).1 = .ok () →
        r.errors = ["verification failed; rolled back"]) ∧
      (∀ re, (rollbackInternal env snap.id).1 = .error re →
        r.errors = ["verification failed; rollback also failed: " ++ re]) := by
  have hcond : (!ver.sysctlOK || !ver.qdiscOK) = true := by
    rcases hfail with h | h <;> simp [h]
  cases hrb : rollbackInternal env snap.id with
  | mk rbRes rbTr =>
      have key : Apply env false req =
        (.ok ⟨req.mode, req.profileID, generatePlan env profile st, snap.id, false,
          some ver, rollbackErrMsgVer rbRes, false⟩,
         (Event.getCurrentState :: generatePlanEvents profile) ++ [Event.snapshotCreate] ++
           applyTr ++ verTr ++ rbTr) := by
        rw [Apply.eq_def]
        simp only [Bool.false_eq_true, if_false, hp, hval, hst, hsnap, happly, hver,
          hrb, hcond, if_neg hmode, if_true]
        cases rbRes <;> rfl
      refine ⟨_, by rw [key], rfl, rfl, rfl, ?_, ?_, ?_⟩
      · rw [key]
        exact List.suffix_append _ rbTr
      · intro hok
        show rollbackErrMsgVer rbRes = _
        rw [show rbRes = Except.ok () from hok]
        rfl
      · intro re herr
        show rollbackErrMsgVer rbRes = _
        rw [show rbRes = Except.error re from herr]
        rfl

/-- Witness for C1 at a concrete environment: the sysctl re-read
disagrees, the engine rolls back and reports it. -/
theorem C1_verification_rollback_amended_witness :
    ∃ r, (Apply envC1w false ⟨"ab", "commit"⟩).1 = .ok r ∧
      r.success = false ∧ r.errors = ["verification failed; rolled back"] := by
  obtain ⟨r, h1, h2, _, _, _, hok, _⟩ :=
    C1_verification_rollback_amended envC1w ⟨"ab", "commit"⟩ pC1w ⟨some [], [], []⟩
      snapC1 [Event.sysctlWriteFile sysctlConfPath, Event.sysctlSetMultiple]
      [Event.sysctlGet "net.core.rmem_max"]
      ⟨false, true, true,
        ["sysctl net.core.rmem_max: expected 16777216, got 212992"]⟩
      (by decide) (by decide) rfl (by decide) rfl (by decide) (by decide)
      (Or.inl rfl)
  exact ⟨r, h1, h2, hok (by decide)⟩

/-- C2 (counterexample): with the systemd enable step failing during the
apply, the apply still returns `success = true` and never enters the
recovery path — so a failure in the systemd apply step does not trigger
rollback. -/
theorem C2_systemd_failure_counterexample :
    envC2.systemdEnable = some "enable failed" ∧
    Event.systemdEnable ∈ (Apply envC2 false ⟨"ab", "commit"⟩).2 ∧
    (Apply envC2 false ⟨"ab", "commit"⟩).1 =
      .ok ⟨"commit", "ab",
        ⟨[], [("eth0", ⟨"pfifo_fast", "fq"⟩)],
         [(nettuneQdiscServiceName, ⟨"inactive", "active"⟩)]⟩, "s2", true,
        some ⟨true, true, true, []⟩, [], true⟩ ∧
    Event.historyRecordRollback true ∉ (Apply envC2 false ⟨"ab", "commit"⟩).2 ∧
    Event.snapshotGet "s2" ∉ (Apply envC2 false ⟨"ab", "commit"⟩).2 :=
  ⟨rfl, by decide, by decide, by decide, by decide⟩

/-- C2 (amended): during a commit-mode apply, mutations are issued in the
fixed order sysctl (write persistent file, then apply in-memory), then
qdisc (validate params, resolve interfaces, set each target interface),
then systemd unit install/enable/start; a failure in the sysctl or qdisc
steps fails `applyChanges` and triggers the recovery path (rollback to the
just-taken snapshot and `success = false`); a failure in the systemd step
does not — the apply outcome depends only on the sysctl and qdisc
oracles. -/
theorem C2_apply_order_amended :
    (∀ (env : Env) (p : Profile), rankedOrdered applyStepRank (applyChanges env p).2) ∧
    (∀ (env : Env) (req : ApplyRequest) (profile : Profile) (st : SystemState)
       (snap : Snapshot) (e : String) (applyTr : List Event),
      env.profiles.lookup req.profileID = some profile →
      Validate profile = none →
      env.currentState = .ok st →
      req.mode ≠ "dry_run" →
      env.snapshotCreate = .ok snap →
      applyChanges env profile = (some e, applyTr) →
      ∃ r, (Apply env false req).1 = .ok r ∧ r.success = false ∧
        r.errors = rollbackErrMsgApply e (rollbackInternal env snap.id).1 ∧
        (rollbackInternal env snap.id).2 <:+ (Apply env false req).2) ∧
    (∀ (env env' : Env) (p : Profile),
      env'.sysctlWriteFile = env.sysctlWriteFile →
      env'.sysctlSetMultiple = env.sysctlSetMultiple →
      env'.qdiscValidateParams = env.qdiscValidateParams →
      env'.qdiscDefaultRoute = env.qdiscDefaultRoute →
      env'.qdiscListInterfaces = env.qdiscListInterfaces →
      env'.qdiscSet = env.qdiscSet →
      (applyChanges env' p).1 = (applyChanges env p).1) := by
  refine ⟨applyChanges_ordered, ?_, fun env env' p h1 h2 h3 h4 h5 h6 =>
    applyChanges_fst_oracle_congr env env' p h1 h2 h3 h4 h5 h6⟩
  intro env req profile st snap e applyTr hp hval hst hmode hsnap happly
  cases hrb : rollbackInternal env snap.id with
  | mk rbRes rbTr =>
      have key : Apply env false req =
        (.ok ⟨req.mode, req.profileID, generatePlan env profile st, snap.id, false,
          none, rollbackErrMsgApply e rbRes, false⟩,
         (Event.getCurrentState :: generatePlanEvents profile) ++ [Event.snapshotCreate] ++
           applyTr ++ rbTr) := by
        rw [Apply.eq_def]
        simp only [Bool.false_eq_true, if_false, hp, hval, hst, hsnap, happly, hrb,
          if_neg hmode]
        cases rbRes <;> rfl
      exact ⟨_, by rw [key], rfl, rfl, by rw [key]; exact List.suffix_append _ rbTr⟩

/-- Witness for C2: at a concrete environment the mutation trace is
rank-ordered, and a failing qdisc set makes the apply roll back and report
it. -/
theorem C2_apply_order_amended_witness :
    rankedOrdered applyStepRank (applyChanges envC2 pC2).2 ∧
    (∃ r, (Apply envC2w false ⟨"ab", "commit"⟩).1 = .ok r ∧ r.success = false ∧
      r.errors =
        ["apply failed and rolled back: failed to set qdisc for eth0: tc replace failed"]) := by
  refine ⟨C2_apply_order_amended.1 envC2 pC2, ?_⟩
  obtain ⟨r, h1, h2, h3, _⟩ :=
    C2_apply_order_amended.2.1 envC2w ⟨"ab", "commit"⟩ pC2
      ⟨some [], [("eth0", some ⟨"pfifo_fast", "0", []⟩)], []⟩ snapC2
      "failed to set qdisc for eth0: tc replace failed"
      [Event.qdiscListIfaces, Event.qdiscSet "eth0"]
      (by decide) (by decide) rfl (by decide) rfl (by decide)
  refine ⟨r, h1, h2, ?_⟩
  rw [h3]
  decide

/-- Witness for C9 at a concrete string. -/
theorem C9_normalizeSysctlValue_spec_witness :
    normalizeSysctlValue (normalizeSysctlValue " a \t b ") = normalizeSysctlValue " a \t b " :=
  (C9_normalizeSysctlValue_spec.1 " a \t b ").1

end Nettune
